import Mathlib

/-!
# Recycle Bin shell folder (dlls/shell32/recyclebin.c)

A shallow embedding of the Recycle Bin virtual folder and of the exported
trash entry points, together with the properties stated about them.

Conventions of the embedding

* `HRESULT` and `LONG` are signed 32-bit values, carried as `Int`; an
  arithmetic result is brought back into range with `toLONG`.
* A pointer that may be NULL is an `Option`.
* A call that leaves the file and acts on the world (allocator, trash engine,
  enumerator object, message box, change notification) is answered by an
  `Env`; every answer may depend on the whole history of calls made so far,
  which is the `Trace`. Each such call appends one `Event` to the trace.
  Reading an item (`TRASH_UnpackItemID`) or a string resource (`LoadStringW`)
  changes nothing and is not recorded.
* A library function that only computes (string, date and memory functions)
  is a member of a `Host`.
* A buffer is the list of its cells; a store past its end would make the list
  longer, so a result of unchanged length shows that no store left the buffer.
* A C array handed over as pointer plus count is the list of its entries.
-/

namespace Shell32

set_option linter.unusedVariables false

/-! ## Scalars -/

/-- HRESULT: a signed 32-bit status code. -/
abbrev HRESULT := Int

/-- ULONG: an unsigned 32-bit value. -/
abbrev ULONG := Nat

/-- DWORD: an unsigned 32-bit value. -/
abbrev DWORD := Fin 4294967296

/-- Conversion of an integer to LONG (two's complement, 32 bits). -/
def toLONG (x : Int) : Int := (x + 2147483648) % 4294967296 - 2147483648

/-- Conversion of an integer to ULONG (32 bits). -/
def toULONG (x : Int) : ULONG := (x % 4294967296).toNat

/-- Modelled from the spec: S_OK, declared in winerror.h which is not under src/. -/
def S_OK : HRESULT := 0

/-- Modelled from the spec: E_NOTIMPL (0x80004001), declared in winerror.h which is not under src/. -/
def E_NOTIMPL : HRESULT := 0x80004001 - 0x100000000

/-- Modelled from the spec: E_NOINTERFACE (0x80004002), declared in winerror.h which is not under src/. -/
def E_NOINTERFACE : HRESULT := 0x80004002 - 0x100000000

/-- Modelled from the spec: E_POINTER (0x80004003), declared in winerror.h which is not under src/. -/
def E_POINTER : HRESULT := 0x80004003 - 0x100000000

/-- Modelled from the spec: E_FAIL (0x80004005), declared in winerror.h which is not under src/. -/
def E_FAIL : HRESULT := 0x80004005 - 0x100000000

/-- Modelled from the spec: E_OUTOFMEMORY (0x8007000E), declared in winerror.h which is not under src/. -/
def E_OUTOFMEMORY : HRESULT := 0x8007000E - 0x100000000

/-- Modelled from the spec: E_INVALIDARG (0x80070057), declared in winerror.h which is not under src/. -/
def E_INVALIDARG : HRESULT := 0x80070057 - 0x100000000

/-- Modelled from the spec: CLASS_E_NOAGGREGATION (0x80040110), declared in winerror.h which is not under src/. -/
def CLASS_E_NOAGGREGATION : HRESULT := 0x80040110 - 0x100000000

/-- Modelled from the spec: the FAILED macro of winerror.h (not under src/), `(HRESULT)(hr) < 0`. -/
def FAILED (hr : HRESULT) : Bool := decide (hr < 0)

/-- Modelled from the spec: the SUCCEEDED macro of winerror.h (not under src/), `(HRESULT)(hr) >= 0`. -/
def SUCCEEDED (hr : HRESULT) : Bool := decide (0 ≤ hr)

/-! ## Interface identifiers -/

/-- GUID: the four fields of the C structure; `Data4` is the array of eight bytes. -/
structure GUID where
  Data1 : Nat
  Data2 : Nat
  Data3 : Nat
  Data4 : List Nat
deriving DecidableEq, Repr

/-- Modelled from the spec: IsEqualGUID (guiddef.h, not under src/), a comparison of the two
structures field by field. -/
def IsEqualGUID (a b : GUID) : Bool := decide (a = b)

/-- Modelled from the spec: IID_IUnknown, defined in a header that is not under src/. -/
def IID_IUnknown : GUID := ⟨0x00000000, 0x0000, 0x0000, [0xC0, 0, 0, 0, 0, 0, 0, 0x46]⟩

/-- Modelled from the spec: IID_IShellFolder, defined in a header that is not under src/. -/
def IID_IShellFolder : GUID := ⟨0x000214E6, 0x0000, 0x0000, [0xC0, 0, 0, 0, 0, 0, 0, 0x46]⟩

/-- Modelled from the spec: IID_IShellFolder2, defined in a header that is not under src/. -/
def IID_IShellFolder2 : GUID :=
  ⟨0x93F2F68C, 0x1D1B, 0x11D3, [0xA3, 0x0E, 0x00, 0xC0, 0x4F, 0x79, 0xAB, 0xD1]⟩

/-- Modelled from the spec: IID_IPersist, defined in a header that is not under src/. -/
def IID_IPersist : GUID := ⟨0x0000010C, 0x0000, 0x0000, [0xC0, 0, 0, 0, 0, 0, 0, 0x46]⟩

/-- Modelled from the spec: IID_IPersistFolder, defined in a header that is not under src/. -/
def IID_IPersistFolder : GUID := ⟨0x000214EA, 0x0000, 0x0000, [0xC0, 0, 0, 0, 0, 0, 0, 0x46]⟩

/-- Modelled from the spec: IID_IPersistFolder2, defined in a header that is not under src/. -/
def IID_IPersistFolder2 : GUID :=
  ⟨0x1AC3D9F0, 0x175C, 0x11D1, [0x95, 0xBE, 0x00, 0x60, 0x97, 0x97, 0xEA, 0x4F]⟩

/-- Modelled from the spec: IID_ISFHelper, defined in a header that is not under src/. -/
def IID_ISFHelper : GUID :=
  ⟨0x1FE68EFB, 0x1874, 0x9812, [0x56, 0xDC, 0x00, 0x00, 0x00, 0x00, 0x00, 0x00]⟩

/-! ## Item identifiers and file data -/

/-- SHITEMID: the size field `cb` and the bytes `abID` that follow it. -/
structure SHITEMID where
  cb : Nat
  abID : List Nat
deriving DecidableEq, Repr

/-- ITEMIDLIST: the items of an item id list, in order, without the terminator. -/
abbrev ITEMIDLIST := List SHITEMID

/-- The first item of an item id list (`pidl->mkid`); the terminator for an empty list. -/
def ITEMIDLIST.mkid (pidl : ITEMIDLIST) : SHITEMID := pidl.headD ⟨0, []⟩

/-- FILETIME: two 32-bit halves. -/
structure FILETIME where
  dwLowDateTime : DWORD
  dwHighDateTime : DWORD
deriving DecidableEq, Repr

/-- WIN32_FIND_DATAW: the members that recyclebin.c reads. -/
structure WIN32_FIND_DATAW where
  ftLastAccessTime : FILETIME
  ftLastWriteTime : FILETIME
  nFileSizeHigh : DWORD
  nFileSizeLow : DWORD
  cFileName : List Nat
deriving DecidableEq, Repr

/-- Modelled from the spec: MAX_PATH (260), defined in windef.h which is not under src/. -/
def MAX_PATH : Nat := 260

/-! ## Calls that leave the file -/

/-- The string resources that erase_items loads with LoadStringW; a loaded string is
identified by its resource. -/
inductive ResourceId where
  | IDS_RECYCLEBIN_ERASEITEM
  | IDS_RECYCLEBIN_ERASEMULTIPLE
  | IDS_RECYCLEBIN_ERASE_CAPTION
deriving DecidableEq, Repr

/-- One call that leaves recyclebin.c, with its arguments and its answer. -/
inductive Event where
  /-- The call `SHAlloc(sizeof(RecycleBin))`; `ok` tells whether the result is non-NULL. -/
  | SHAlloc (ok : Bool)
  /-- The call `SHFree(This->pidl)`. -/
  | SHFree_pidl (pidl : Option ITEMIDLIST)
  /-- The call `SHFree(This)`, which ends the life of the object. -/
  | SHFree_RecycleBin
  /-- The call `TRASH_EnumItems(&pidls, &count)`. -/
  | TRASH_EnumItems (hr : HRESULT) (pidls : List ITEMIDLIST)
  /-- The call `IEnumIDList_Constructor()`; `ok` tells whether the result is non-NULL. -/
  | IEnumIDList_Constructor (ok : Bool)
  /-- The call `AddToEnumList(list, pidl)` and its BOOL result. -/
  | AddToEnumList (pidl : ITEMIDLIST) (ok : Bool)
  /-- The call `IEnumIDList_Release(list)` on an enumerator holding `held`. -/
  | IEnumIDList_Release (held : List ITEMIDLIST)
  /-- The call `ILFree(pidl)`. -/
  | ILFree (pidl : Option ITEMIDLIST)
  /-- The call `SHFree(pidls)` on the array returned by TRASH_EnumItems. -/
  | SHFree_array (pidls : List ITEMIDLIST)
  /-- The call `ShellMessageBoxW(shell32_hInstance, parent, message, caption, uType, arg)` and
  the button it returns. -/
  | ShellMessageBoxW (parent : Nat) (message caption : ResourceId) (uType : Nat) (arg : List Nat)
      (answer : Int)
  /-- The call `SHGetFolderLocation(parent, CSIDL_BITBUCKET, 0, 0, &recyclebin)`. -/
  | SHGetFolderLocation (parent : Nat) (recyclebin : Option ITEMIDLIST)
  /-- The call `TRASH_EraseItem(pidl)` and its result. -/
  | TRASH_EraseItem (pidl : ITEMIDLIST) (hr : HRESULT)
  /-- The call `SHChangeNotify(wEventId, uFlags, ILCombine(recyclebin, pidl), 0)`. -/
  | SHChangeNotify (wEventId uFlags : Nat) (recyclebin : Option ITEMIDLIST) (pidl : ITEMIDLIST)
  /-- The call `ILClone(pidl)` and the pointer it returns. -/
  | ILClone (pidl : Option ITEMIDLIST) (result : Option ITEMIDLIST)
  /-- The call `StrDupW(src)`; `ok` tells whether the result is non-NULL. -/
  | StrDupW (src : List Nat) (ok : Bool)
  /-- The call `SHStrDupW(src, &dest)`; `ok` tells whether the copy could be allocated. -/
  | SHStrDupW (src : List Nat) (ok : Bool)
deriving DecidableEq, Repr

/-- The history of calls made so far, oldest first. -/
abbrev Trace := List Event

/-- The answers of the collaborators that are not under src/ (shell allocator, trash.c,
enumidlist.c, user32): each is a function of the history and of the arguments of the call. -/
structure Env where
  /-- Whether `SHAlloc` returns a non-NULL block. -/
  SHAlloc : Trace → Bool
  /-- Result and output array of `TRASH_EnumItems`. When the result is a failure the list
  stands for whatever the two output variables hold. -/
  TRASH_EnumItems : Trace → HRESULT × List ITEMIDLIST
  /-- Whether `IEnumIDList_Constructor` returns a non-NULL enumerator. -/
  IEnumIDList_Constructor : Trace → Bool
  /-- Whether `AddToEnumList` can allocate the entry for the item. -/
  AddToEnumList : Trace → ITEMIDLIST → Bool
  /-- The data `TRASH_UnpackItemID` leaves in `data` for an item: a function of the item. -/
  TRASH_UnpackItemID : SHITEMID → WIN32_FIND_DATAW
  /-- The button `ShellMessageBoxW` returns, given the parent window, the message, the caption,
  the style and the argument. -/
  ShellMessageBoxW : Trace → Nat → ResourceId → ResourceId → Nat → List Nat → Int
  /-- The window `GetActiveWindow` returns. -/
  GetActiveWindow : Trace → Nat
  /-- The item id list `SHGetFolderLocation` stores for CSIDL_BITBUCKET, given the window. -/
  SHGetFolderLocation : Trace → Nat → Option ITEMIDLIST
  /-- The result of `TRASH_EraseItem`. -/
  TRASH_EraseItem : Trace → ITEMIDLIST → HRESULT
  /-- Whether `ILClone` can allocate the copy of an item id list. -/
  ILClone : Trace → ITEMIDLIST → Bool
  /-- Whether `StrDupW` can allocate the copy of a string. -/
  StrDupW : Trace → List Nat → Bool
  /-- Whether `SHStrDupW` can allocate the copy of a string. -/
  SHStrDupW : Trace → List Nat → Bool

/-! ## The RecycleBin object -/

/-- The three interfaces a RecycleBin exposes; an interface pointer into a given object is
identified by the member it points at. -/
inductive Iface where
  | IShellFolder2_iface
  | IPersistFolder2_iface
  | ISFHelper_iface
deriving DecidableEq, Repr

/-- The data members of `struct tagRecycleBin`. The three `lpVtbl` members are constant after
construction and are represented by the dispatch functions below. -/
structure RecycleBin where
  refCount : Int
  pidl : Option ITEMIDLIST
deriving DecidableEq, Repr

/-- Modelled from the spec: InterlockedIncrement (winbase.h, not under src/): adds one to a LONG
and returns the new value. -/
def InterlockedIncrement (v : Int) : Int := toLONG (v + 1)

/-- Modelled from the spec: InterlockedDecrement (winbase.h, not under src/): subtracts one from
a LONG and returns the new value. -/
def InterlockedDecrement (v : Int) : Int := toLONG (v - 1)

/-- RecycleBin_Destructor: frees the stored pidl, then the object. -/
def RecycleBin_Destructor (This : RecycleBin) (tr : Trace) : Trace :=
  tr ++ [Event.SHFree_pidl This.pidl, Event.SHFree_RecycleBin]

/-- RecycleBin_AddRef: returns the incremented count (as ULONG) and the updated object. -/
def RecycleBin_AddRef (This : RecycleBin) : ULONG × RecycleBin :=
  let result := InterlockedIncrement This.refCount
  (toULONG result, { This with refCount := result })

/-- RecycleBin_Release: returns the decremented count (as ULONG), the object if it is still
alive, and the trace. -/
def RecycleBin_Release (This : RecycleBin) (tr : Trace) : ULONG × Option RecycleBin × Trace :=
  let result := InterlockedDecrement This.refCount
  let This1 : RecycleBin := { This with refCount := result }
  if result = 0 then
    (toULONG result, none, RecycleBin_Destructor This1 tr)
  else
    (toULONG result, some This1, tr)

/-- RecycleBin_IPersistFolder2_AddRef: delegates to RecycleBin_AddRef. -/
def RecycleBin_IPersistFolder2_AddRef (This : RecycleBin) : ULONG × RecycleBin :=
  RecycleBin_AddRef This

/-- RecycleBin_ISFHelper_AddRef: delegates to RecycleBin_AddRef. -/
def RecycleBin_ISFHelper_AddRef (This : RecycleBin) : ULONG × RecycleBin :=
  RecycleBin_AddRef This

/-- RecycleBin_IPersistFolder2_Release: delegates to RecycleBin_Release. -/
def RecycleBin_IPersistFolder2_Release (This : RecycleBin) (tr : Trace) :
    ULONG × Option RecycleBin × Trace :=
  RecycleBin_Release This tr

/-- RecycleBin_ISFHelper_Release: delegates to RecycleBin_Release. -/
def RecycleBin_ISFHelper_Release (This : RecycleBin) (tr : Trace) :
    ULONG × Option RecycleBin × Trace :=
  RecycleBin_Release This tr

/-- The AddRef slot of the vtable behind an interface pointer
(recycleBinVtbl, recycleBinPersistVtbl, sfhelperVtbl). -/
def IUnknown_AddRef (iface : Iface) (This : RecycleBin) : ULONG × RecycleBin :=
  match iface with
  | .IShellFolder2_iface => RecycleBin_AddRef This
  | .IPersistFolder2_iface => RecycleBin_IPersistFolder2_AddRef This
  | .ISFHelper_iface => RecycleBin_ISFHelper_AddRef This

/-- The Release slot of the vtable behind an interface pointer. -/
def IUnknown_Release (iface : Iface) (This : RecycleBin) (tr : Trace) :
    ULONG × Option RecycleBin × Trace :=
  match iface with
  | .IShellFolder2_iface => RecycleBin_Release This tr
  | .IPersistFolder2_iface => RecycleBin_IPersistFolder2_Release This tr
  | .ISFHelper_iface => RecycleBin_ISFHelper_Release This tr

/-- RecycleBin_QueryInterface: returns the HRESULT, the value stored in `*ppvObject`
(`none` is NULL) and the updated object. -/
def RecycleBin_QueryInterface (This : RecycleBin) (riid : GUID) :
    HRESULT × Option Iface × RecycleBin :=
  let ppvObject : Option Iface := none
  let ppvObject :=
    if IsEqualGUID riid IID_IUnknown || IsEqualGUID riid IID_IShellFolder
        || IsEqualGUID riid IID_IShellFolder2 then
      some Iface.IShellFolder2_iface
    else ppvObject
  let ppvObject :=
    if IsEqualGUID riid IID_IPersist || IsEqualGUID riid IID_IPersistFolder
        || IsEqualGUID riid IID_IPersistFolder2 then
      some Iface.IPersistFolder2_iface
    else ppvObject
  let ppvObject :=
    if IsEqualGUID riid IID_ISFHelper then some Iface.ISFHelper_iface else ppvObject
  match ppvObject with
  | some p => (S_OK, some p, (IUnknown_AddRef p This).2)
  | none => (E_NOINTERFACE, none, This)

/-- RecycleBin_IPersistFolder2_QueryInterface: delegates to RecycleBin_QueryInterface. -/
def RecycleBin_IPersistFolder2_QueryInterface (This : RecycleBin) (riid : GUID) :
    HRESULT × Option Iface × RecycleBin :=
  RecycleBin_QueryInterface This riid

/-- RecycleBin_ISFHelper_QueryInterface: delegates to RecycleBin_QueryInterface. -/
def RecycleBin_ISFHelper_QueryInterface (This : RecycleBin) (riid : GUID) :
    HRESULT × Option Iface × RecycleBin :=
  RecycleBin_QueryInterface This riid

/-- The QueryInterface slot of the vtable behind an interface pointer. -/
def IUnknown_QueryInterface (iface : Iface) (This : RecycleBin) (riid : GUID) :
    HRESULT × Option Iface × RecycleBin :=
  match iface with
  | .IShellFolder2_iface => RecycleBin_QueryInterface This riid
  | .IPersistFolder2_iface => RecycleBin_IPersistFolder2_QueryInterface This riid
  | .ISFHelper_iface => RecycleBin_ISFHelper_QueryInterface This riid

/-- The result of RecycleBin_Constructor: the HRESULT, the content of `*ppOutput` after the
call, the object that is alive after the call (if any) and the trace. -/
structure ConstructorResult where
  hr : HRESULT
  ppOutput : Option Iface
  obj : Option RecycleBin
  trace : Trace
deriving DecidableEq, Repr

/-- RecycleBin_Constructor. `pUnkOuter` is NULL (`none`) or the address of an outer unknown;
`ppOutput` is the content of `*ppOutput` before the call. -/
def RecycleBin_Constructor (env : Env) (pUnkOuter : Option Nat) (riid : GUID)
    (ppOutput : Option Iface) (tr : Trace) : ConstructorResult :=
  if pUnkOuter.isSome then
    ⟨CLASS_E_NOAGGREGATION, ppOutput, none, tr⟩
  else
    let ok := env.SHAlloc tr
    let tr1 := tr ++ [Event.SHAlloc ok]
    if !ok then
      ⟨E_OUTOFMEMORY, ppOutput, none, tr1⟩
    else
      let obj : RecycleBin := { refCount := 0, pidl := none }
      let (ret, out, obj1) := IUnknown_QueryInterface Iface.IPersistFolder2_iface obj riid
      if FAILED ret then
        ⟨ret, out, none, RecycleBin_Destructor obj1 tr1⟩
      else
        ⟨S_OK, out, some obj1, tr1⟩

/-! ## RecycleBin_EnumObjects -/

/-- Modelled from the spec: SHCONTF_NONFOLDERS (0x40), defined in a header that is not under
src/. -/
def SHCONTF_NONFOLDERS : Nat := 0x40

/-- Modelled from the spec: the enumerator object of enumidlist.c (not under src/), seen as the
item id lists it holds, oldest first. -/
abbrev IEnumIDList := List ITEMIDLIST

/-- Modelled from the spec: AddToEnumList of enumidlist.c (not under src/). When the entry can
be allocated the item is added at the tail of the enumerator, which then owns it, and the result
is TRUE; otherwise the enumerator is unchanged and the result is FALSE. -/
def AddToEnumList (env : Env) (list : IEnumIDList) (pidl : ITEMIDLIST) (tr : Trace) :
    Bool × IEnumIDList × Trace :=
  let ok := env.AddToEnumList tr pidl
  (ok, if ok then list ++ [pidl] else list, tr ++ [Event.AddToEnumList pidl ok])

/-- The result of RecycleBin_EnumObjects: the HRESULT, the content of `*ppenumIDList` after the
call and the trace. -/
structure EnumObjectsResult where
  hr : HRESULT
  ppenumIDList : Option IEnumIDList
  trace : Trace
deriving DecidableEq, Repr

/-- The loop `for (i=0; i<pidls_count; i++) if (!AddToEnumList(list, pidls[i])) goto failed;`
started at index `i` with `rest` the entries `pidls[i..pidls_count-1]`. The result tells whether
the loop ran to its end, and gives the final index, the enumerator and the trace. -/
def EnumObjects_loop (env : Env) :
    List ITEMIDLIST → Nat → IEnumIDList → Trace → Bool × Nat × IEnumIDList × Trace
  | [], i, list, tr => (true, i, list, tr)
  | p :: rest, i, list, tr =>
    match AddToEnumList env list p tr with
    | (true, list1, tr1) => EnumObjects_loop env rest (i + 1) list1 tr1
    | (false, list1, tr1) => (false, i, list1, tr1)

/-- The code after the label `failed:` of RecycleBin_EnumObjects; `list` is NULL (`none`) or the
enumerator, `i` the index reached. -/
def EnumObjects_failed (list : Option IEnumIDList) (i : Nat) (pidls : List ITEMIDLIST)
    (tr : Trace) : EnumObjectsResult :=
  let tr1 :=
    match list with
    | some l => tr ++ [Event.IEnumIDList_Release l]
    | none => tr
  let tr2 := tr1 ++ (pidls.drop i).map (fun p => Event.ILFree (some p))
  ⟨E_OUTOFMEMORY, none, tr2 ++ [Event.SHFree_array pidls]⟩

/-- RecycleBin_EnumObjects. The object and the window handle are only traced by the C code and
are left out. -/
def RecycleBin_EnumObjects (env : Env) (grfFlags : Nat) (tr : Trace) : EnumObjectsResult :=
  if grfFlags &&& SHCONTF_NONFOLDERS ≠ 0 then
    let (ret, pidls) := env.TRASH_EnumItems tr
    let tr1 := tr ++ [Event.TRASH_EnumItems ret pidls]
    if FAILED ret then
      ⟨ret, none, tr1⟩
    else
      let ok := env.IEnumIDList_Constructor tr1
      let tr2 := tr1 ++ [Event.IEnumIDList_Constructor ok]
      if !ok then
        EnumObjects_failed none 0 pidls tr2
      else
        match EnumObjects_loop env pidls 0 [] tr2 with
        | (true, _, list, tr3) => ⟨S_OK, some list, tr3⟩
        | (false, i, list, tr3) => EnumObjects_failed (some list) i pidls tr3
  else
    let ok := env.IEnumIDList_Constructor tr
    let tr1 := tr ++ [Event.IEnumIDList_Constructor ok]
    if !ok then
      ⟨E_OUTOFMEMORY, none, tr1⟩
    else
      ⟨S_OK, some [], tr1⟩

/-! ## erase_items and the ISFHelper entry -/

/-- Modelled from the spec: IDYES (6), defined in winuser.h which is not under src/. -/
def IDYES : Int := 6

/-- Modelled from the spec: MB_YESNO (0x4), defined in winuser.h which is not under src/. -/
def MB_YESNO : Nat := 0x4

/-- Modelled from the spec: MB_ICONEXCLAMATION (0x30), defined in winuser.h which is not under
src/. -/
def MB_ICONEXCLAMATION : Nat := 0x30

/-- Modelled from the spec: SHCNE_DELETE (0x4), defined in shlobj.h which is not under src/. -/
def SHCNE_DELETE : Nat := 0x4

/-- Modelled from the spec: SHCNF_IDLIST (0), defined in shlobj.h which is not under src/. -/
def SHCNF_IDLIST : Nat := 0x0

/-- The loop `for (; i<cidl; i++)` of erase_items over the entries that are left. -/
def erase_items_loop (env : Env) (recyclebin : Option ITEMIDLIST) :
    List ITEMIDLIST → Trace → Trace
  | [], tr => tr
  | p :: rest, tr =>
    let hr := env.TRASH_EraseItem tr p
    let tr1 := tr ++ [Event.TRASH_EraseItem p hr]
    let tr2 :=
      if SUCCEEDED hr then
        tr1 ++ [Event.SHChangeNotify SHCNE_DELETE SHCNF_IDLIST recyclebin p]
      else tr1
    erase_items_loop env recyclebin rest tr2

/-- The part of erase_items after the confirmation block. -/
def erase_items_proceed (env : Env) (parent : Nat) (apidl : List ITEMIDLIST) (tr : Trace) :
    HRESULT × Trace :=
  let recyclebin := env.SHGetFolderLocation tr parent
  let tr1 := tr ++ [Event.SHGetFolderLocation parent recyclebin]
  let tr2 := erase_items_loop env recyclebin apidl tr1
  (S_OK, tr2 ++ [Event.ILFree recyclebin])

/-- The message box of erase_items and the test of its answer, once `message` and `arg` are
prepared. -/
def erase_items_ask (env : Env) (parent : Nat) (apidl : List ITEMIDLIST)
    (message : ResourceId) (arg : List Nat) (tr : Trace) : HRESULT × Trace :=
  let ret := S_OK
  let caption := ResourceId.IDS_RECYCLEBIN_ERASE_CAPTION
  let answer := env.ShellMessageBoxW tr parent message caption
    (MB_YESNO ||| MB_ICONEXCLAMATION) arg
  let tr1 := tr ++ [Event.ShellMessageBoxW parent message caption
    (MB_YESNO ||| MB_ICONEXCLAMATION) arg answer]
  if answer ≠ IDYES then (ret, tr1) else erase_items_proceed env parent apidl tr1

/-- The function erase_items. The pair `apidl`, `cidl` of the C code is the list `apidl`, and
`cidl` is its length; the three cases of `switch(cidl)` are the three shapes of the list. For
one item `arg` is the file name copied by `lstrcpynW(arg, data.cFileName, MAX_PATH)`, otherwise
the digits printed by `sprintfW(arg, "%u", cidl)`. -/
def erase_items (env : Env) (parent : Nat) (apidl : List ITEMIDLIST) (confirm : Bool)
    (tr : Trace) : HRESULT × Trace :=
  let cidl := apidl.length
  if confirm then
    match apidl with
    | [] => (S_OK, tr)
    | [p] =>
      let data := env.TRASH_UnpackItemID p.mkid
      let arg := data.cFileName.take (MAX_PATH - 1)
      let message := ResourceId.IDS_RECYCLEBIN_ERASEITEM
      erase_items_ask env parent apidl message arg tr
    | _ :: _ :: _ =>
      let message := ResourceId.IDS_RECYCLEBIN_ERASEMULTIPLE
      let arg := (Nat.toDigits 10 cidl).map Char.toNat
      erase_items_ask env parent apidl message arg tr
  else
    erase_items_proceed env parent apidl tr

/-- RecycleBin_DeleteItems. -/
def RecycleBin_DeleteItems (env : Env) (apidl : List ITEMIDLIST) (tr : Trace) :
    HRESULT × Trace :=
  erase_items env (env.GetActiveWindow tr) apidl true tr

/-! ## SHQueryRecycleBinW and SHEmptyRecycleBinW -/

/-- Conversion to an unsigned 64-bit value. -/
def toDWORDLONG (x : Nat) : Nat := x % 18446744073709551616

/-- SHQUERYRBINFO; the two 64-bit members are carried as their unsigned values. -/
structure SHQUERYRBINFO where
  cbSize : DWORD
  i64Size : Nat
  i64NumItems : Nat
deriving DecidableEq, Repr

/-- The loop of SHQueryRecycleBinW over the entries that are left: adds each size to
`i64Size` and frees the entry. -/
def SHQueryRecycleBinW_loop (env : Env) : List ITEMIDLIST → Nat → Trace → Nat × Trace
  | [], i64Size, tr => (i64Size, tr)
  | p :: rest, i64Size, tr =>
    let data := env.TRASH_UnpackItemID p.mkid
    let i64Size1 := toDWORDLONG
      (i64Size + toDWORDLONG (toDWORDLONG (data.nFileSizeHigh.val <<< 32) + data.nFileSizeLow.val))
    SHQueryRecycleBinW_loop env rest i64Size1 (tr ++ [Event.ILFree (some p)])

/-- SHQueryRecycleBinW. `info` is the content of `*pSHQueryRBInfo` before the call. -/
def SHQueryRecycleBinW (env : Env) (pszRootPath : Option (List Nat)) (info : SHQUERYRBINFO)
    (tr : Trace) : HRESULT × SHQUERYRBINFO × Trace :=
  let (hrEnum, apidl) := env.TRASH_EnumItems tr
  let tr1 := tr ++ [Event.TRASH_EnumItems hrEnum apidl]
  let cidl := apidl.length
  let info1 := { info with i64NumItems := cidl }
  let info2 := { info1 with i64Size := 0 }
  let (size, tr2) := SHQueryRecycleBinW_loop env apidl info2.i64Size tr1
  (S_OK, { info2 with i64Size := size }, tr2 ++ [Event.SHFree_array apidl])

/-- The flag SHERB_NOCONFIRMATION. -/
def SHERB_NOCONFIRMATION : Nat := 1

/-- The flag SHERB_NOPROGRESSUI. -/
def SHERB_NOPROGRESSUI : Nat := 2

/-- The flag SHERB_NOSOUND. -/
def SHERB_NOSOUND : Nat := 4

/-- SHEmptyRecycleBinW. -/
def SHEmptyRecycleBinW (env : Env) (hwnd : Nat) (pszRootPath : Option (List Nat))
    (dwFlags : Nat) (tr : Trace) : HRESULT × Trace :=
  let (hrEnum, apidl) := env.TRASH_EnumItems tr
  let tr1 := tr ++ [Event.TRASH_EnumItems hrEnum apidl]
  let (ret, tr2) := erase_items env hwnd apidl (dwFlags &&& SHERB_NOCONFIRMATION == 0) tr1
  (ret, tr2 ++ apidl.map (fun p => Event.ILFree (some p)) ++ [Event.SHFree_array apidl])

/-- The interface ids RecycleBin_QueryInterface tests for. -/
def SupportedIID (riid : GUID) : Prop :=
  riid = IID_IUnknown ∨ riid = IID_IShellFolder ∨ riid = IID_IShellFolder2 ∨
  riid = IID_IPersist ∨ riid = IID_IPersistFolder ∨ riid = IID_IPersistFolder2 ∨
  riid = IID_ISFHelper

instance (riid : GUID) : Decidable (SupportedIID riid) := by
  unfold SupportedIID; infer_instance

/-! ## Reading a trace -/

/-- The item and the result of a TRASH_EraseItem call. -/
def Event.eraseCall : Event → Option (ITEMIDLIST × HRESULT)
  | .TRASH_EraseItem pidl hr => some (pidl, hr)
  | _ => none

/-- The event id and the item of a change notification. -/
def Event.notification : Event → Option (Nat × ITEMIDLIST)
  | .SHChangeNotify wEventId _ _ pidl => some (wEventId, pidl)
  | _ => none

/-- The button returned by a message box. -/
def Event.answer : Event → Option Int
  | .ShellMessageBoxW _ _ _ _ _ answer => some answer
  | _ => none

/-- The item id list freed by an ILFree call. -/
def Event.freed : Event → Option (Option ITEMIDLIST)
  | .ILFree pidl => some pidl
  | _ => none

/-- The items held by an enumerator at its release. -/
def Event.released : Event → Option (List ITEMIDLIST)
  | .IEnumIDList_Release held => some held
  | _ => none

/-- Whether an event is a call of TRASH_EnumItems. -/
def Event.isEnumItems : Event → Bool
  | .TRASH_EnumItems _ _ => true
  | _ => false

/-- The TRASH_EraseItem calls of a trace, in order, each with its result. -/
def eraseCalls (tr : Trace) : List (ITEMIDLIST × HRESULT) := tr.filterMap Event.eraseCall

/-- The change notifications of a trace, in order. -/
def notifications (tr : Trace) : List (Nat × ITEMIDLIST) := tr.filterMap Event.notification

/-- The answers of the message boxes shown in a trace, in order. -/
def answers (tr : Trace) : List Int := tr.filterMap Event.answer

/-- The pointers passed to ILFree in a trace, in order. -/
def freed (tr : Trace) : List (Option ITEMIDLIST) := tr.filterMap Event.freed

/-- The contents of the enumerators released in a trace, in order. -/
def released (tr : Trace) : List (List ITEMIDLIST) := tr.filterMap Event.released

/-- The size an item reports: `nFileSizeHigh * 2^32 + nFileSizeLow` of its unpacked data. -/
def itemSize (env : Env) (pidl : ITEMIDLIST) : Nat :=
  (env.TRASH_UnpackItemID pidl.mkid).nFileSizeHigh.val * 4294967296
    + (env.TRASH_UnpackItemID pidl.mkid).nFileSizeLow.val

/-! ## Sample collaborators -/

/-- A trash item whose single identifier byte is `n`. -/
def sampleItem (n : Nat) : ITEMIDLIST := [⟨3, [n]⟩]

/-- Collaborators for which every allocation succeeds, the trash holds two items, the user
answers IDYES and erasing the first item fails. -/
def sampleEnv : Env where
  SHAlloc := fun _ => true
  TRASH_EnumItems := fun _ => (S_OK, [sampleItem 1, sampleItem 2])
  IEnumIDList_Constructor := fun _ => true
  AddToEnumList := fun _ _ => true
  TRASH_UnpackItemID := fun id => ⟨⟨0, 0⟩, ⟨0, 0⟩, if id.abID = [1] then 1 else 0, 5, [102]⟩
  ShellMessageBoxW := fun _ _ _ _ _ _ => IDYES
  GetActiveWindow := fun _ => 0
  SHGetFolderLocation := fun _ _ => some []
  TRASH_EraseItem := fun _ pidl => if pidl = sampleItem 1 then E_FAIL else S_OK
  ILClone := fun _ _ => true
  StrDupW := fun _ _ => true
  SHStrDupW := fun _ _ => true

/-- The sample collaborators with a user who answers IDNO (7). -/
def sampleEnvNo : Env := { sampleEnv with ShellMessageBoxW := fun _ _ _ _ _ _ => 7 }

/-- The sample collaborators with an enumerator that cannot take the second item. -/
def sampleEnvFull : Env :=
  { sampleEnv with AddToEnumList := fun _ pidl => decide (pidl = sampleItem 1) }

/-- The sample collaborators with no memory for an enumerator. -/
def sampleEnvNoEnum : Env := { sampleEnv with IEnumIDList_Constructor := fun _ => false }

/-- The sample collaborators with a trash engine that fails. -/
def sampleEnvNoTrash : Env := { sampleEnv with TRASH_EnumItems := fun _ => (E_FAIL, []) }

end Shell32

/-! # IDirectPlay8Peer::EnumServiceProviders (dlls/dpnet) -/

namespace Dpnet

open Shell32 (HRESULT GUID S_OK E_POINTER)

/-- Modelled from the spec: DPNERR_BUFFERTOOSMALL (0x80158100), defined in dplay8.h which is
not under src/. -/
def DPNERR_BUFFERTOOSMALL : HRESULT := 0x80158100 - 0x100000000

/-- Modelled from the spec: one enumerated item (DPN_SERVICE_PROVIDER_INFO, dplay8.h, not under
src/): the members the conformance test reads. -/
structure DPN_SERVICE_PROVIDER_INFO where
  guid : GUID
  pwszName : List Nat
deriving DecidableEq, Repr

/-- Modelled from the spec: the two enumerations the spec describes, selected by the provider
GUID argument: NULL for the service providers, CLSID_DP8SP_TCPIP for the adapters of that
provider. -/
inductive Enumeration where
  | serviceProviders
  | adaptersOfTCPIP
deriving DecidableEq, Repr

/-- Modelled from the spec: what an initialized IDirectPlay8Peer can enumerate. The spec has
each enumeration report a non-zero number of items, so each is a first item and the others.
`sizeofInfo` is the size in bytes of the fixed part of an item. -/
structure Peer where
  sizeofInfo : Nat
  firstProvider : DPN_SERVICE_PROVIDER_INFO
  otherProviders : List DPN_SERVICE_PROVIDER_INFO
  firstAdapter : DPN_SERVICE_PROVIDER_INFO
  otherAdapters : List DPN_SERVICE_PROVIDER_INFO

/-- Modelled from the spec: the items of an enumeration. -/
def Peer.items (peer : Peer) : Enumeration → List DPN_SERVICE_PROVIDER_INFO
  | .serviceProviders => peer.firstProvider :: peer.otherProviders
  | .adaptersOfTCPIP => peer.firstAdapter :: peer.otherAdapters

/-- Modelled from the spec: the bytes an item takes in the caller's buffer: its fixed part and
its name with the terminator, two bytes a character. -/
def Peer.itemBytes (peer : Peer) (info : DPN_SERVICE_PROVIDER_INFO) : Nat :=
  peer.sizeofInfo + 2 * (info.pwszName.length + 1)

/-- Modelled from the spec: the buffer size an enumeration requires. -/
def Peer.requiredSize (peer : Peer) (e : Enumeration) : Nat :=
  ((peer.items e).map peer.itemBytes).sum

/-- The outcome of EnumServiceProviders: the HRESULT, the values behind the size and the
item-count pointers after the call (`none` for a NULL pointer) and the items written to the
buffer. -/
structure EnumResult where
  hr : HRESULT
  pcbEnumData : Option Nat
  pcReturned : Option Nat
  written : List DPN_SERVICE_PROVIDER_INFO
deriving DecidableEq, Repr

/-- Modelled from the spec: IDirectPlay8Peer::EnumServiceProviders of an initialized peer; the
function is in dlls/dpnet, which is not under src/ (only its conformance test peer.c is). It
follows the two-call buffer protocol: E_POINTER when the size pointer or the item-count pointer
is NULL; DPNERR_BUFFERTOOSMALL, storing the required size, when the buffer is NULL or smaller
than required; otherwise S_OK, writing the items and storing their number.
`pSPInfoBuffer` is NULL (`none`) or the address of the buffer, `pcbEnumData` and `pcReturned`
are NULL (`none`) or the values behind the pointers. -/
def EnumServiceProviders (peer : Peer) (e : Enumeration) (pSPInfoBuffer : Option Nat)
    (pcbEnumData : Option Nat) (pcReturned : Option Nat) : EnumResult :=
  match pcbEnumData, pcReturned with
  | none, _ => ⟨E_POINTER, pcbEnumData, pcReturned, []⟩
  | _, none => ⟨E_POINTER, pcbEnumData, pcReturned, []⟩
  | some size, some items =>
    if pSPInfoBuffer.isNone || size < peer.requiredSize e then
      ⟨DPNERR_BUFFERTOOSMALL, some (peer.requiredSize e), some items, []⟩
    else
      ⟨S_OK, some size, some (peer.items e).length, peer.items e⟩

/-- A peer with one service provider and one adapter. -/
def samplePeer : Peer where
  sizeofInfo := 32
  firstProvider := ⟨⟨1, 2, 3, [0, 0, 0, 0, 0, 0, 0, 1]⟩, [84, 67, 80]⟩
  otherProviders := []
  firstAdapter := ⟨⟨4, 5, 6, [0, 0, 0, 0, 0, 0, 0, 2]⟩, [76, 65, 78]⟩
  otherAdapters := []

end Dpnet

namespace Shell32

set_option linter.unusedVariables false

/-! ## IPersistFolder2: RecycleBin_Initialize and RecycleBin_GetCurFolder -/

/-- Modelled from the spec: ILClone of pidl.c (not under src/). For NULL the result is NULL;
otherwise it is a newly allocated copy of the item id list, equal to it, or NULL when the copy
cannot be allocated. -/
def ILClone (env : Env) (pidl : Option ITEMIDLIST) (tr : Trace) : Option ITEMIDLIST × Trace :=
  match pidl with
  | none => (none, tr ++ [Event.ILClone none none])
  | some p =>
    let result := if env.ILClone tr p then some p else none
    (result, tr ++ [Event.ILClone (some p) result])

/-- RecycleBin_Initialize: returns the HRESULT, the updated object and the trace. -/
def RecycleBin_Initialize (env : Env) (This : RecycleBin) (pidl : Option ITEMIDLIST)
    (tr : Trace) : HRESULT × RecycleBin × Trace :=
  let (clone, tr1) := ILClone env pidl tr
  let This1 : RecycleBin := { This with pidl := clone }
  if This1.pidl = none then
    (E_OUTOFMEMORY, This1, tr1)
  else
    (S_OK, This1, tr1)

/-- RecycleBin_GetCurFolder: returns the HRESULT, the value stored in `*ppidl`, the object
(which the function only reads) and the trace. -/
def RecycleBin_GetCurFolder (env : Env) (This : RecycleBin) (tr : Trace) :
    HRESULT × Option ITEMIDLIST × RecycleBin × Trace :=
  let (clone, tr1) := ILClone env This.pidl tr
  (S_OK, clone, This, tr1)

/-- Collaborators that can allocate one clone of an item id list and no second one. -/
def sampleEnvOneClone : Env :=
  { sampleEnv with ILClone := fun tr _ => tr.all (fun e => decide (e ≠ Event.ILClone
      (some (sampleItem 1)) (some (sampleItem 1)))) }

/-! ## The column table -/

/-- The column titles named in the table (string resources of shresdef.h). -/
inductive ColumnNameId where
  | IDS_SHV_COLUMN1
  | IDS_SHV_COLUMN_DELFROM
  | IDS_SHV_COLUMN_DELDATE
  | IDS_SHV_COLUMN2
  | IDS_SHV_COLUMN3
  | IDS_SHV_COLUMN4
deriving DecidableEq, Repr

/-- Modelled from the spec: FMTID_Storage, defined in a header that is not under src/. -/
def FMTID_Storage : GUID :=
  ⟨0xB725F130, 0x47EF, 0x101A, [0xA5, 0xF1, 0x02, 0x60, 0x8C, 0x9E, 0xEB, 0xAC]⟩

/-- Modelled from the spec: FMTID_Displaced, defined in a header that is not under src/. -/
def FMTID_Displaced : GUID :=
  ⟨0x9B174B33, 0x40FF, 0x11D2, [0xA2, 0x7E, 0x00, 0xC0, 0x4F, 0xC3, 0x08, 0x71]⟩

/-- Modelled from the spec: PID_STG_STORAGETYPE (4), defined in ntquery.h which is not under
src/. -/
def PID_STG_STORAGETYPE : Nat := 4

/-- Modelled from the spec: PID_STG_NAME (10), defined in ntquery.h which is not under src/. -/
def PID_STG_NAME : Nat := 10

/-- Modelled from the spec: PID_STG_SIZE (12), defined in ntquery.h which is not under src/. -/
def PID_STG_SIZE : Nat := 12

/-- Modelled from the spec: PID_STG_WRITETIME (14), defined in ntquery.h which is not under
src/. -/
def PID_STG_WRITETIME : Nat := 14

/-- Modelled from the spec: PID_DISPLACED_FROM (2), defined in a header that is not under
src/. -/
def PID_DISPLACED_FROM : Nat := 2

/-- Modelled from the spec: PID_DISPLACED_DATE (3), defined in a header that is not under
src/. -/
def PID_DISPLACED_DATE : Nat := 3

/-- Modelled from the spec: SHCOLSTATE_TYPE_STR (0x1), defined in a header that is not under
src/. -/
def SHCOLSTATE_TYPE_STR : Nat := 0x1

/-- Modelled from the spec: SHCOLSTATE_TYPE_INT (0x2), defined in a header that is not under
src/. -/
def SHCOLSTATE_TYPE_INT : Nat := 0x2

/-- Modelled from the spec: SHCOLSTATE_TYPE_DATE (0x3), defined in a header that is not under
src/. -/
def SHCOLSTATE_TYPE_DATE : Nat := 0x3

/-- Modelled from the spec: SHCOLSTATE_ONBYDEFAULT (0x10), defined in a header that is not
under src/. -/
def SHCOLSTATE_ONBYDEFAULT : Nat := 0x10

/-- Modelled from the spec: LVCFMT_LEFT (0), defined in commctrl.h which is not under src/. -/
def LVCFMT_LEFT : Int := 0

/-- Modelled from the spec: LVCFMT_RIGHT (1), defined in commctrl.h which is not under src/. -/
def LVCFMT_RIGHT : Int := 1

/-- The structure columninfo. -/
structure columninfo where
  column_name_id : ColumnNameId
  fmtId : GUID
  pid : Nat
  pcsFlags : Nat
  fmt : Int
  cxChars : Int
deriving DecidableEq, Repr

/-- The table RecycleBinColumns. -/
def RecycleBinColumns : List columninfo :=
  [⟨ColumnNameId.IDS_SHV_COLUMN1, FMTID_Storage, PID_STG_NAME,
      SHCOLSTATE_TYPE_STR ||| SHCOLSTATE_ONBYDEFAULT, LVCFMT_LEFT, 30⟩,
   ⟨ColumnNameId.IDS_SHV_COLUMN_DELFROM, FMTID_Displaced, PID_DISPLACED_FROM,
      SHCOLSTATE_TYPE_STR ||| SHCOLSTATE_ONBYDEFAULT, LVCFMT_LEFT, 30⟩,
   ⟨ColumnNameId.IDS_SHV_COLUMN_DELDATE, FMTID_Displaced, PID_DISPLACED_DATE,
      SHCOLSTATE_TYPE_DATE ||| SHCOLSTATE_ONBYDEFAULT, LVCFMT_LEFT, 20⟩,
   ⟨ColumnNameId.IDS_SHV_COLUMN2, FMTID_Storage, PID_STG_SIZE,
      SHCOLSTATE_TYPE_INT ||| SHCOLSTATE_ONBYDEFAULT, LVCFMT_RIGHT, 20⟩,
   ⟨ColumnNameId.IDS_SHV_COLUMN3, FMTID_Storage, PID_STG_STORAGETYPE,
      SHCOLSTATE_TYPE_INT ||| SHCOLSTATE_ONBYDEFAULT, LVCFMT_LEFT, 20⟩,
   ⟨ColumnNameId.IDS_SHV_COLUMN4, FMTID_Storage, PID_STG_WRITETIME,
      SHCOLSTATE_TYPE_DATE ||| SHCOLSTATE_ONBYDEFAULT, LVCFMT_LEFT, 20⟩]

/-- The column number COLUMN_NAME. -/
def COLUMN_NAME : Nat := 0

/-- The column number COLUMN_DELFROM. -/
def COLUMN_DELFROM : Nat := 1

/-- The column number COLUMN_DATEDEL. -/
def COLUMN_DATEDEL : Nat := 2

/-- The column number COLUMN_SIZE. -/
def COLUMN_SIZE : Nat := 3

/-- The column number COLUMN_TYPE. -/
def COLUMN_TYPE : Nat := 4

/-- The column number COLUMN_MTIME. -/
def COLUMN_MTIME : Nat := 5

/-- The number of columns COLUMNS_COUNT. -/
def COLUMNS_COUNT : Nat := 6

/-- RecycleBin_GetDefaultColumnState: `pcsFlags` is the content of `*pcsFlags` before the call;
the result is the HRESULT and the content after the call, or `none` if the table were read
outside its bounds. -/
def RecycleBin_GetDefaultColumnState (iColumn : Nat) (pcsFlags : Nat) :
    Option (HRESULT × Nat) :=
  if iColumn ≥ COLUMNS_COUNT then
    some (E_INVALIDARG, pcsFlags)
  else
    match RecycleBinColumns[iColumn]? with
    | some column => some (S_OK, column.pcsFlags)
    | none => none

/-- SHCOLUMNID: a format id and a property id. -/
structure SHCOLUMNID where
  fmtid : GUID
  pid : Nat
deriving DecidableEq, Repr

/-- RecycleBin_MapColumnToSCID: `pscid` is the content of `*pscid` before the call; the result
is the HRESULT and the content after the call, or `none` if the table were read outside its
bounds. -/
def RecycleBin_MapColumnToSCID (iColumn : Nat) (pscid : SHCOLUMNID) :
    Option (HRESULT × SHCOLUMNID) :=
  if iColumn ≥ COLUMNS_COUNT then
    some (E_INVALIDARG, pscid)
  else
    match RecycleBinColumns[iColumn]? with
    | some column => some (S_OK, { pscid with fmtid := column.fmtId, pid := column.pid })
    | none => none

/-! ## RecycleBin_GetAttributesOf -/

/-- Modelled from the spec: SFGAO_CANMOVE (0x2), defined in a header that is not under src/. -/
def SFGAO_CANMOVE : Nat := 0x2

/-- Modelled from the spec: SFGAO_CANDELETE (0x20), defined in a header that is not under
src/. -/
def SFGAO_CANDELETE : Nat := 0x20

/-- Modelled from the spec: SFGAO_HASPROPSHEET (0x40), defined in a header that is not under
src/. -/
def SFGAO_HASPROPSHEET : Nat := 0x40

/-- Modelled from the spec: SFGAO_FILESYSTEM (0x40000000), defined in a header that is not
under src/. -/
def SFGAO_FILESYSTEM : Nat := 0x40000000

/-- Modelled from the spec: SFGAO_FOLDER (0x20000000), defined in a header that is not under
src/. -/
def SFGAO_FOLDER : Nat := 0x20000000

/-- RecycleBin_GetAttributesOf: `rgfInOut` is the content of `*rgfInOut` before the call; the
result is the HRESULT and the content after the call. -/
def RecycleBin_GetAttributesOf (apidl : List ITEMIDLIST) (rgfInOut : Nat) : HRESULT × Nat :=
  (S_OK, rgfInOut &&&
    (SFGAO_CANMOVE ||| SFGAO_CANDELETE ||| SFGAO_HASPROPSHEET ||| SFGAO_FILESYSTEM))


/-! ## Library functions that only compute -/

/-- SYSTEMTIME: the eight WORD members. -/
structure SYSTEMTIME where
  wYear : Nat
  wMonth : Nat
  wDayOfWeek : Nat
  wDay : Nat
  wHour : Nat
  wMinute : Nat
  wSecond : Nat
  wMilliseconds : Nat
deriving DecidableEq, Repr

/-- The library functions recyclebin.c calls that compute a value without acting on the world
(C library, kernel32, shlwapi, user32 string resources); none of them is under src/. A string
is the list of its characters without the terminator. -/
structure Host where
  /-- The result of `memcmp(a, b, n)` on the memory at `a` and at `b`. -/
  memcmp : List Nat → List Nat → Nat → Int
  /-- The local file time `FileTimeToLocalFileTime` stores. -/
  FileTimeToLocalFileTime : FILETIME → FILETIME
  /-- The system time `FileTimeToSystemTime` stores. -/
  FileTimeToSystemTime : FILETIME → SYSTEMTIME
  /-- Result of `GetDateFormatW(LOCALE_USER_DEFAULT, DATE_SHORTDATE, &time, NULL, dest, cch)`
  and the characters it stores from `dest[0]` on. -/
  GetDateFormatW : SYSTEMTIME → Int → Int × List Nat
  /-- Result of `GetTimeFormatW(LOCALE_USER_DEFAULT, TIME_NOSECONDS, &time, NULL, dest, cch)`
  and the characters it stores from `dest[0]` on. -/
  GetTimeFormatW : SYSTEMTIME → Int → Int × List Nat
  /-- The part of a path `PathFindFileNameW` points at. -/
  PathFindFileNameW : List Nat → List Nat
  /-- The path `PathRemoveFileSpecW` leaves in place of a path. -/
  PathRemoveFileSpecW : List Nat → List Nat
  /-- The string `StrFormatKBSizeW(llBytes, dest, cch)` stores. -/
  StrFormatKBSizeW : Int → Nat → List Nat
  /-- The string `LoadStringW(shell32_hInstance, id, dest, cch)` stores for a column title. -/
  LoadStringW : ColumnNameId → Nat → List Nat

/-- Storing the characters `chars` into the cells of `buffer` from index `offset` on. Cells
outside the list would be cells outside the buffer: a store that reaches them makes the list
longer. -/
def writeAt (buffer : List Nat) (offset : Nat) (chars : List Nat) : List Nat :=
  buffer.take offset ++ chars ++ buffer.drop (offset + chars.length)

/-- The string held by a buffer: its cells up to the first terminator. -/
def wstr (buffer : List Nat) : List Nat := buffer.takeWhile (fun c => c != 0)

/-! ## FormatDateTime -/

/-- Modelled from the spec: the effect of GetDateFormatW (kernel32, not under src/) on the
buffer it is given: it returns its result and stores its characters, never more than `cch`
of them, from the start of the buffer. -/
def GetDateFormatW (host : Host) (time : SYSTEMTIME) (buffer : List Nat) (cch : Int) :
    Int × List Nat :=
  ((host.GetDateFormatW time cch).1,
    writeAt buffer 0 ((host.GetDateFormatW time cch).2.take cch.toNat))

/-- Modelled from the spec: the effect of GetTimeFormatW (kernel32, not under src/) called with
the address of cell `offset` of the buffer: it returns its result and stores its characters,
never more than `cch` of them, from that cell on. -/
def GetTimeFormatW (host : Host) (time : SYSTEMTIME) (buffer : List Nat) (offset : Nat)
    (cch : Int) : Int × List Nat :=
  ((host.GetTimeFormatW time cch).1,
    writeAt buffer offset ((host.GetTimeFormatW time cch).2.take cch.toNat))

/-- FormatDateTime: `buffer` is the content of the caller's buffer before the call; the result
is the HRESULT and the content after the call. -/
def FormatDateTime (host : Host) (buffer : List Nat) (size : Int) (ft : FILETIME) :
    HRESULT × List Nat :=
  let lft := host.FileTimeToLocalFileTime ft
  let time := host.FileTimeToSystemTime lft
  let (ret, buffer1) := GetDateFormatW host time buffer size
  let buffer2 :=
    if ret > 0 ∧ ret < size then
      let buffer1a := writeAt buffer1 (ret - 1).toNat [32]
      (GetTimeFormatW host time buffer1a ret.toNat (size - ret)).2
    else buffer1
  (if ret ≠ 0 then E_FAIL else S_OK, buffer2)

/-! ## RecycleBin_CompareIDs -/

/-- Conversion of an integer to unsigned short (16 bits). -/
def toUSHORT (x : Int) : Nat := (x % 65536).toNat

/-- Modelled from the spec: SEVERITY_SUCCESS (0), defined in winerror.h which is not under
src/. -/
def SEVERITY_SUCCESS : Nat := 0

/-- Modelled from the spec: the macro MAKE_HRESULT of winerror.h (not under src/):
`(HRESULT)(((unsigned)(sev) << 31) | ((unsigned)(fac) << 16) | ((unsigned)(code)))`. -/
def MAKE_HRESULT (sev fac : Nat) (code : Int) : HRESULT :=
  toLONG (((sev <<< 31) % 4294967296 ||| (fac <<< 16) % 4294967296 ||| toULONG code : Nat) : Int)

/-- Modelled from the spec: the macro HRESULT_SEVERITY of winerror.h (not under src/), bit 31
of the value. -/
def HRESULT_SEVERITY (hr : HRESULT) : Nat := (toULONG hr >>> 31) &&& 0x1

/-- Modelled from the spec: the macro HRESULT_FACILITY of winerror.h (not under src/), bits 16
to 28 of the value. -/
def HRESULT_FACILITY (hr : HRESULT) : Nat := (toULONG hr >>> 16) &&& 0x1fff

/-- Modelled from the spec: the macro HRESULT_CODE of winerror.h (not under src/), the low 16
bits of the value. -/
def HRESULT_CODE (hr : HRESULT) : Nat := toULONG hr &&& 0xFFFF

/-- The bytes of an item in memory: the two bytes of `cb`, low byte first, then `abID`. -/
def SHITEMID.bytes (id : SHITEMID) : List Nat := [id.cb % 256, id.cb / 256 % 256] ++ id.abID

/-- The bytes of an item id list in memory: its items, then the two zero bytes that end it. -/
def ITEMIDLIST.bytes (pidl : ITEMIDLIST) : List Nat :=
  (pidl.map SHITEMID.bytes).flatten ++ [0, 0]

/-- The memory at `pidl->mkid.abID`: what follows the first two bytes of the list. -/
def ITEMIDLIST.abIDMemory (pidl : ITEMIDLIST) : List Nat := pidl.bytes.drop 2

/-- RecycleBin_CompareIDs. The object is only traced by the C code and is left out. -/
def RecycleBin_CompareIDs (host : Host) (lParam : Int) (pidl1 pidl2 : ITEMIDLIST) : HRESULT :=
  if pidl1.mkid.cb ≠ pidl2.mkid.cb then
    MAKE_HRESULT SEVERITY_SUCCESS 0 ((pidl1.mkid.cb : Int) - (pidl2.mkid.cb : Int))
  else
    MAKE_HRESULT SEVERITY_SUCCESS 0
      (toUSHORT (host.memcmp pidl1.abIDMemory pidl2.abIDMemory pidl1.mkid.cb))

/-- What ISO C promises about the result of memcmp that matters for equality: it is zero exactly
when the first `n` bytes of the two blocks are equal. -/
def MemcmpZeroIffEqual (memcmp : List Nat → List Nat → Nat → Int) : Prop :=
  ∀ (a b : List Nat) (n : Nat), memcmp a b n = 0 ↔ a.take n = b.take n

/-- A memcmp that returns the difference of the first two bytes that differ. -/
def memcmpBytes : List Nat → List Nat → Nat → Int
  | _, _, 0 => 0
  | [], [], _ + 1 => 0
  | [], _ :: _, _ + 1 => -1
  | _ :: _, [], _ + 1 => 1
  | x :: a, y :: b, n + 1 => if x = y then memcmpBytes a b n else (x : Int) - (y : Int)

/-- A memcmp that reports the order of the two blocks as 0, 65536 or -65536, as a routine
comparing the blocks by words of four bytes may do. -/
def memcmpWide (a b : List Nat) (n : Nat) : Int :=
  if a.take n = b.take n then 0 else if a.take n < b.take n then -65536 else 65536

/-- A memcmp that reports the order of the two blocks as 0, 1 or -1. -/
def memcmpSign (a b : List Nat) (n : Nat) : Int :=
  if a.take n = b.take n then 0 else if a.take n < b.take n then -1 else 1


/-! ## RecycleBin_GetDisplayNameOf and RecycleBin_GetDetailsOf -/

/-- Modelled from the spec: STRRET_WSTR (0), defined in a header that is not under src/. -/
def STRRET_WSTR : Nat := 0

/-- Modelled from the spec: SHGDN_NORMAL (0), defined in a header that is not under src/. -/
def SHGDN_NORMAL : Nat := 0

/-- STRRET: the type tag and the `pOleStr` member of the union, NULL (`none`) or the string it
points at. -/
structure STRRET where
  uType : Nat
  pOleStr : Option (List Nat)
deriving DecidableEq, Repr

/-- SHELLDETAILS. -/
structure SHELLDETAILS where
  fmt : Int
  cxChar : Int
  str : STRRET
deriving DecidableEq, Repr

/-- Modelled from the spec: StrDupW of shlwapi (not under src/): a newly allocated copy of the
string, or NULL when it cannot be allocated. -/
def StrDupW (env : Env) (src : List Nat) (tr : Trace) : Option (List Nat) × Trace :=
  let ok := env.StrDupW tr src
  (if ok then some src else none, tr ++ [Event.StrDupW src ok])

/-- Modelled from the spec: SHStrDupW of shlwapi (not under src/): S_OK and a newly allocated
copy of the string, or E_OUTOFMEMORY and NULL when it cannot be allocated. -/
def SHStrDupW (env : Env) (src : List Nat) (tr : Trace) :
    HRESULT × Option (List Nat) × Trace :=
  let ok := env.SHStrDupW tr src
  (if ok then S_OK else E_OUTOFMEMORY, if ok then some src else none,
    tr ++ [Event.SHStrDupW src ok])

/-- RecycleBin_GetDisplayNameOf: `pName` is the content of `*pName` before the call; the
result is the HRESULT, the content after the call and the trace. -/
def RecycleBin_GetDisplayNameOf (env : Env) (host : Host) (pidl : ITEMIDLIST) (uFlags : Nat)
    (pName : STRRET) (tr : Trace) : HRESULT × STRRET × Trace :=
  let data := env.TRASH_UnpackItemID pidl.mkid
  let pName1 := { pName with uType := STRRET_WSTR }
  let (dup, tr1) := StrDupW env (host.PathFindFileNameW data.cFileName) tr
  let pName2 := { pName1 with pOleStr := dup }
  if pName2.pOleStr = none then
    (E_OUTOFMEMORY, pName2, tr1)
  else
    (S_OK, pName2, tr1)

/-- Conversion of an unsigned 64-bit value to LONGLONG (two's complement). -/
def toLONGLONG (x : Nat) : Int :=
  ((x : Int) + 9223372036854775808) % 18446744073709551616 - 9223372036854775808

/-- The `switch (iColumn)` of RecycleBin_GetDetailsOf: the string the chosen case leaves in
`buffer`, or `none` for the `default` case. `buffer` is the content of the local array before
the switch. -/
def GetDetailsOf_switch (host : Host) (data : WIN32_FIND_DATAW) (buffer : List Nat)
    (iColumn : Nat) : Option (List Nat) :=
  if iColumn = COLUMN_DATEDEL then
    some (wstr (FormatDateTime host buffer MAX_PATH data.ftLastAccessTime).2)
  else if iColumn = COLUMN_DELFROM then
    some (host.PathRemoveFileSpecW data.cFileName)
  else if iColumn = COLUMN_SIZE then
    some (host.StrFormatKBSizeW
      (toLONGLONG ((data.nFileSizeHigh.val <<< 32) ||| data.nFileSizeLow.val)) MAX_PATH)
  else if iColumn = COLUMN_MTIME then
    some (wstr (FormatDateTime host buffer MAX_PATH data.ftLastWriteTime).2)
  else if iColumn = COLUMN_TYPE then
    some (wstr (writeAt buffer 0 [0]))
  else
    none

/-- RecycleBin_GetDetailsOf: `buffer` is the content the local array `buffer` happens to have,
`pidl` is NULL (`none`) or the item, `pDetails` is the content of `*pDetails` before the call;
the result is the HRESULT, the content after the call and the trace, or `none` if the table
were read outside its bounds. -/
def RecycleBin_GetDetailsOf (env : Env) (host : Host) (buffer : List Nat)
    (pidl : Option ITEMIDLIST) (iColumn : Nat) (pDetails : SHELLDETAILS) (tr : Trace) :
    Option (HRESULT × SHELLDETAILS × Trace) :=
  if iColumn ≥ COLUMNS_COUNT then
    some (E_FAIL, pDetails, tr)
  else
    match RecycleBinColumns[iColumn]? with
    | none => none
    | some column =>
      let pDetails1 := { pDetails with fmt := column.fmt, cxChar := column.cxChars }
      match pidl with
      | none =>
        let str1 := { pDetails1.str with uType := STRRET_WSTR }
        let (hr, dest, tr1) := SHStrDupW env (host.LoadStringW column.column_name_id MAX_PATH) tr
        some (hr, { pDetails1 with str := { str1 with pOleStr := dest } }, tr1)
      | some p =>
        if iColumn = COLUMN_NAME then
          let (hr, str1, tr1) :=
            RecycleBin_GetDisplayNameOf env host p SHGDN_NORMAL pDetails1.str tr
          some (hr, { pDetails1 with str := str1 }, tr1)
        else
          let data := env.TRASH_UnpackItemID p.mkid
          match GetDetailsOf_switch host data buffer iColumn with
          | none => some (E_FAIL, pDetails1, tr)
          | some text =>
            let str1 := { pDetails1.str with uType := STRRET_WSTR }
            let (hr, dest, tr1) := SHStrDupW env text tr
            some (hr, { pDetails1 with str := { str1 with pOleStr := dest } }, tr1)

/-- The outcome of RecycleBin_GetDetailsOf when the text of a column is handed to SHStrDupW:
its HRESULT, the details with the format and width of the column and a STRRET_WSTR string that
is what SHStrDupW stored, and its trace. -/
def detailsOfText (env : Env) (column : columninfo) (text : List Nat) (tr : Trace) :
    Option (HRESULT × SHELLDETAILS × Trace) :=
  some ((SHStrDupW env text tr).1,
    ⟨column.fmt, column.cxChars, ⟨STRRET_WSTR, (SHStrDupW env text tr).2.1⟩⟩,
    (SHStrDupW env text tr).2.2)

/-! ## Sample library -/

/-- Library functions for examples: the date is written `1/2/2003`, the time `4:05`, a path is
split at its last backslash (92), a size is shown as its number of kilobytes. -/
def sampleHost : Host where
  memcmp := memcmpBytes
  FileTimeToLocalFileTime := fun ft => ft
  FileTimeToSystemTime := fun _ => ⟨2003, 1, 4, 2, 4, 5, 6, 0⟩
  GetDateFormatW := fun _ cch =>
    if 9 ≤ cch then (9, [49, 47, 50, 47, 50, 48, 48, 51, 0]) else (0, [])
  GetTimeFormatW := fun _ cch => if 5 ≤ cch then (5, [52, 58, 48, 53, 0]) else (0, [])
  PathFindFileNameW := fun path =>
    (path.reverse.takeWhile (fun c => c != 92)).reverse
  PathRemoveFileSpecW := fun path =>
    (path.reverse.dropWhile (fun c => c != 92)).drop 1 |>.reverse
  StrFormatKBSizeW := fun bytes _ => (Nat.toDigits 10 (bytes / 1024).toNat).map Char.toNat
  LoadStringW := fun _ _ => [78]

/-- The sample library with a memcmp that reports 0, 65536 or -65536. -/
def sampleHostWide : Host := { sampleHost with memcmp := memcmpWide }

/-- The sample library with a date formatter that fails. -/
def sampleHostNoDate : Host := { sampleHost with GetDateFormatW := fun _ _ => (0, []) }


/-! ## Properties -/

/-! ### RecycleBin_QueryInterface -/

/-- The outcome of RecycleBin_QueryInterface as a function of the interface id alone. -/
theorem RecycleBin_QueryInterface_eq (This : RecycleBin) (riid : GUID) :
    RecycleBin_QueryInterface This riid =
      if riid = IID_ISFHelper then
        (S_OK, some Iface.ISFHelper_iface, { This with refCount := toLONG (This.refCount + 1) })
      else if riid = IID_IPersist ∨ riid = IID_IPersistFolder ∨ riid = IID_IPersistFolder2 then
        (S_OK, some Iface.IPersistFolder2_iface,
          { This with refCount := toLONG (This.refCount + 1) })
      else if riid = IID_IUnknown ∨ riid = IID_IShellFolder ∨ riid = IID_IShellFolder2 then
        (S_OK, some Iface.IShellFolder2_iface,
          { This with refCount := toLONG (This.refCount + 1) })
      else (E_NOINTERFACE, none, This) := by
  unfold RecycleBin_QueryInterface
  by_cases h7 : riid = IID_ISFHelper
  · subst h7; rfl
  · by_cases h4 : riid = IID_IPersist
    · subst h4; rfl
    · by_cases h5 : riid = IID_IPersistFolder
      · subst h5; rfl
      · by_cases h6 : riid = IID_IPersistFolder2
        · subst h6; rfl
        · by_cases h1 : riid = IID_IUnknown
          · subst h1; rfl
          · by_cases h2 : riid = IID_IShellFolder
            · subst h2; rfl
            · by_cases h3 : riid = IID_IShellFolder2
              · subst h3; rfl
              · simp [IsEqualGUID, h1, h2, h3, h4, h5, h6, h7]

/-- C1: for every RecycleBin and every interface id, RecycleBin_QueryInterface returns S_OK
with a non-NULL `*ppvObject` exactly when the id is one of IID_IUnknown, IID_IShellFolder,
IID_IShellFolder2, IID_IPersist, IID_IPersistFolder, IID_IPersistFolder2, IID_ISFHelper: it
yields the IShellFolder2 interface for the first three, the IPersistFolder2 interface for the
next three and the ISFHelper interface for the last; for every other id it returns
E_NOINTERFACE and stores NULL. -/
theorem RecycleBin_QueryInterface_contract (This : RecycleBin) (riid : GUID) :
    ((riid = IID_IUnknown ∨ riid = IID_IShellFolder ∨ riid = IID_IShellFolder2) →
      (RecycleBin_QueryInterface This riid).1 = S_OK ∧
      (RecycleBin_QueryInterface This riid).2.1 = some Iface.IShellFolder2_iface) ∧
    ((riid = IID_IPersist ∨ riid = IID_IPersistFolder ∨ riid = IID_IPersistFolder2) →
      (RecycleBin_QueryInterface This riid).1 = S_OK ∧
      (RecycleBin_QueryInterface This riid).2.1 = some Iface.IPersistFolder2_iface) ∧
    (riid = IID_ISFHelper →
      (RecycleBin_QueryInterface This riid).1 = S_OK ∧
      (RecycleBin_QueryInterface This riid).2.1 = some Iface.ISFHelper_iface) ∧
    (¬ SupportedIID riid →
      (RecycleBin_QueryInterface This riid).1 = E_NOINTERFACE ∧
      (RecycleBin_QueryInterface This riid).2.1 = none) ∧
    (((RecycleBin_QueryInterface This riid).1 = S_OK ∧
      (RecycleBin_QueryInterface This riid).2.1 ≠ none) ↔ SupportedIID riid) := by
  rw [RecycleBin_QueryInterface_eq]
  refine ⟨?_, ?_, ?_, ?_, ?_⟩
  · rintro (h | h | h) <;> subst h <;> exact ⟨rfl, rfl⟩
  · rintro (h | h | h) <;> subst h <;> exact ⟨rfl, rfl⟩
  · rintro h; subst h; exact ⟨rfl, rfl⟩
  · intro h
    simp only [SupportedIID, not_or] at h
    obtain ⟨h1, h2, h3, h4, h5, h6, h7⟩ := h
    simp [h1, h2, h3, h4, h5, h6, h7]
  · unfold SupportedIID
    by_cases h7 : riid = IID_ISFHelper
    · simp [h7]
    · by_cases hp : riid = IID_IPersist ∨ riid = IID_IPersistFolder ∨ riid = IID_IPersistFolder2
      · simp only [h7, hp, if_true, if_false]
        rcases hp with h | h | h <;> simp [h]
      · by_cases hs : riid = IID_IUnknown ∨ riid = IID_IShellFolder ∨ riid = IID_IShellFolder2
        · simp only [h7, hp, hs, if_true, if_false]
          rcases hs with h | h | h <;> simp [h]
        · simp only [h7, hp, hs, if_false]
          simp only [not_or] at hp hs
          simp [hp.1, hp.2.1, hp.2.2, hs.1, hs.2.1, hs.2.2, h7, E_NOINTERFACE, S_OK]

/-- C1, at concrete ids: the seven supported ids and one that is not supported. -/
theorem RecycleBin_QueryInterface_contract_witness :
    (RecycleBin_QueryInterface ⟨1, none⟩ IID_IShellFolder2).1 = S_OK ∧
    (RecycleBin_QueryInterface ⟨1, none⟩ IID_IShellFolder2).2.1 = some Iface.IShellFolder2_iface ∧
    (RecycleBin_QueryInterface ⟨1, none⟩ IID_IPersistFolder).2.1
      = some Iface.IPersistFolder2_iface ∧
    (RecycleBin_QueryInterface ⟨1, none⟩ IID_ISFHelper).2.1 = some Iface.ISFHelper_iface ∧
    (RecycleBin_QueryInterface ⟨1, none⟩ ⟨1, 2, 3, [4, 5, 6, 7, 8, 9, 10, 11]⟩).1
      = E_NOINTERFACE ∧
    (RecycleBin_QueryInterface ⟨1, none⟩ ⟨1, 2, 3, [4, 5, 6, 7, 8, 9, 10, 11]⟩).2.1 = none :=
  ⟨((RecycleBin_QueryInterface_contract ⟨1, none⟩ IID_IShellFolder2).1
      (Or.inr (Or.inr rfl))).1,
   ((RecycleBin_QueryInterface_contract ⟨1, none⟩ IID_IShellFolder2).1
      (Or.inr (Or.inr rfl))).2,
   ((RecycleBin_QueryInterface_contract ⟨1, none⟩ IID_IPersistFolder).2.1
      (Or.inr (Or.inl rfl))).2,
   ((RecycleBin_QueryInterface_contract ⟨1, none⟩ IID_ISFHelper).2.2.1 rfl).2,
   ((RecycleBin_QueryInterface_contract ⟨1, none⟩ ⟨1, 2, 3, [4, 5, 6, 7, 8, 9, 10, 11]⟩).2.2.2.1
      (by decide)).1,
   ((RecycleBin_QueryInterface_contract ⟨1, none⟩ ⟨1, 2, 3, [4, 5, 6, 7, 8, 9, 10, 11]⟩).2.2.2.1
      (by decide)).2⟩

/-! ### Reference counting -/

/-- The conversion to LONG leaves a value of the LONG range unchanged. -/
theorem toLONG_of_range (x : Int) (h0 : -2147483648 ≤ x) (h1 : x ≤ 2147483647) :
    toLONG x = x := by
  unfold toLONG
  omega

/-- The conversion to ULONG leaves a non-negative value of the LONG range unchanged. -/
theorem toULONG_of_range (x : Int) (h0 : 0 ≤ x) (h1 : x ≤ 2147483647) :
    ((toULONG x : Nat) : Int) = x := by
  unfold toULONG
  omega

/-- RecycleBin_AddRef on a count that can still grow. -/
theorem RecycleBin_AddRef_eq (This : RecycleBin) (h0 : 0 ≤ This.refCount)
    (h1 : This.refCount < 2147483647) :
    ((RecycleBin_AddRef This).1 : Int) = This.refCount + 1 ∧
    (RecycleBin_AddRef This).2 = { This with refCount := This.refCount + 1 } := by
  have hl : toLONG (This.refCount + 1) = This.refCount + 1 :=
    toLONG_of_range _ (by omega) (by omega)
  simp only [RecycleBin_AddRef, InterlockedIncrement, hl]
  exact ⟨toULONG_of_range _ (by omega) (by omega), trivial⟩

/-- RecycleBin_Release on a positive count. -/
theorem RecycleBin_Release_eq (This : RecycleBin) (tr : Trace) (h0 : 0 < This.refCount)
    (h1 : This.refCount ≤ 2147483647) :
    ((RecycleBin_Release This tr).1 : Int) = This.refCount - 1 ∧
    (RecycleBin_Release This tr).2 =
      if This.refCount - 1 = 0 then
        (none, RecycleBin_Destructor { This with refCount := 0 } tr)
      else (some { This with refCount := This.refCount - 1 }, tr) := by
  have hl : toLONG (This.refCount - 1) = This.refCount - 1 :=
    toLONG_of_range _ (by omega) (by omega)
  have hu := toULONG_of_range (This.refCount - 1) (by omega) (by omega)
  unfold RecycleBin_Release
  simp only [InterlockedDecrement, hl]
  by_cases hz : This.refCount - 1 = 0
  · simp only [hz, if_true]
    exact ⟨by rw [← hz]; exact hu, trivial⟩
  · simp only [hz, if_false]
    exact ⟨hu, trivial⟩

/-- The three QueryInterface entries behave alike. -/
theorem IUnknown_QueryInterface_eq (iface : Iface) (This : RecycleBin) (riid : GUID) :
    IUnknown_QueryInterface iface This riid = RecycleBin_QueryInterface This riid := by
  cases iface <;> rfl

/-- The three AddRef entries behave alike. -/
theorem IUnknown_AddRef_eq (iface : Iface) (This : RecycleBin) :
    IUnknown_AddRef iface This = RecycleBin_AddRef This := by
  cases iface <;> rfl

/-- The three Release entries behave alike. -/
theorem IUnknown_Release_eq (iface : Iface) (This : RecycleBin) (tr : Trace) :
    IUnknown_Release iface This tr = RecycleBin_Release This tr := by
  cases iface <;> rfl

/-- RecycleBin_QueryInterface either succeeds with S_OK and an incremented count or fails with
E_NOINTERFACE and leaves the object as it was. -/
theorem RecycleBin_QueryInterface_cases (This : RecycleBin) (riid : GUID) :
    (SupportedIID riid ∧ (RecycleBin_QueryInterface This riid).1 = S_OK ∧
      (RecycleBin_QueryInterface This riid).2.1 ≠ none ∧
      (RecycleBin_QueryInterface This riid).2.2
        = { This with refCount := toLONG (This.refCount + 1) }) ∨
    (¬ SupportedIID riid ∧ RecycleBin_QueryInterface This riid = (E_NOINTERFACE, none, This)) := by
  rw [RecycleBin_QueryInterface_eq]
  unfold SupportedIID
  by_cases h7 : riid = IID_ISFHelper
  · left; simp [h7]
  · by_cases hp : riid = IID_IPersist ∨ riid = IID_IPersistFolder ∨ riid = IID_IPersistFolder2
    · left
      simp only [h7, hp, if_true, if_false]
      exact ⟨by tauto, trivial, by simp, trivial⟩
    · by_cases hs : riid = IID_IUnknown ∨ riid = IID_IShellFolder ∨ riid = IID_IShellFolder2
      · left
        simp only [h7, hp, hs, if_true, if_false]
        exact ⟨by tauto, trivial, by simp, trivial⟩
      · right
        simp only [h7, hp, hs, if_false]
        exact ⟨by tauto, trivial⟩

/-- C2: on an object whose count is that of its outstanding references (positive, and below
the largest LONG), through any of the three interfaces: AddRef returns the old count plus one
and stores it; Release returns the old count minus one and stores it; the destructor runs, and
the object ends, exactly when that Release brings the count to 0, and otherwise the trace is
unchanged and the object lives on; a successful QueryInterface raises the count by exactly one
and a failed one leaves the object unchanged. AddRef and QueryInterface make no outside call
and hand back a live object, so they never run the destructor. -/
theorem RecycleBin_refCount_faithful (iface : Iface) (This : RecycleBin) (riid : GUID)
    (tr : Trace) (h0 : 0 < This.refCount) (h1 : This.refCount < 2147483647) :
    ((IUnknown_AddRef iface This).1 : Int) = This.refCount + 1 ∧
    (IUnknown_AddRef iface This).2 = { This with refCount := This.refCount + 1 } ∧
    ((IUnknown_Release iface This tr).1 : Int) = This.refCount - 1 ∧
    (This.refCount - 1 = 0 →
      (IUnknown_Release iface This tr).2
        = (none, RecycleBin_Destructor { This with refCount := 0 } tr)) ∧
    (This.refCount - 1 ≠ 0 →
      (IUnknown_Release iface This tr).2
        = (some { This with refCount := This.refCount - 1 }, tr)) ∧
    ((IUnknown_Release iface This tr).2.1 = none ↔ This.refCount - 1 = 0) ∧
    ((IUnknown_Release iface This tr).2.2 ≠ tr ↔ This.refCount - 1 = 0) ∧
    (SUCCEEDED (IUnknown_QueryInterface iface This riid).1 = true →
      (IUnknown_QueryInterface iface This riid).2.2
        = { This with refCount := This.refCount + 1 }) ∧
    (FAILED (IUnknown_QueryInterface iface This riid).1 = true →
      (IUnknown_QueryInterface iface This riid).2.2 = This) := by
  rw [IUnknown_AddRef_eq, IUnknown_Release_eq, IUnknown_QueryInterface_eq]
  obtain ⟨ha1, ha2⟩ := RecycleBin_AddRef_eq This (le_of_lt h0) h1
  obtain ⟨hr1, hr2⟩ := RecycleBin_Release_eq This tr h0 (le_of_lt h1)
  have hl : toLONG (This.refCount + 1) = This.refCount + 1 :=
    toLONG_of_range _ (by omega) (by omega)
  refine ⟨ha1, ha2, hr1, ?_, ?_, ?_, ?_, ?_, ?_⟩
  · intro hz; rw [hr2, if_pos hz]
  · intro hz; rw [hr2, if_neg hz]
  · rw [hr2]; by_cases hz : This.refCount - 1 = 0 <;> simp [hz]
  · rw [hr2]; by_cases hz : This.refCount - 1 = 0 <;> simp [hz, RecycleBin_Destructor]
  · intro hs
    rcases RecycleBin_QueryInterface_cases This riid with ⟨_, _, _, h⟩ | ⟨_, h⟩
    · rw [h, hl]
    · rw [h] at hs; simp [SUCCEEDED, E_NOINTERFACE] at hs
  · intro hf
    rcases RecycleBin_QueryInterface_cases This riid with ⟨_, h, _, _⟩ | ⟨_, h⟩
    · rw [h] at hf; simp [FAILED, S_OK] at hf
    · rw [h]

/-- C2 at a concrete object holding one reference: a Release through the ISFHelper interface
returns 0 and runs the destructor; an AddRef returns 2. -/
theorem RecycleBin_refCount_faithful_witness :
    ((IUnknown_AddRef Iface.ISFHelper_iface ⟨1, none⟩).1 : Int) = 2 ∧
    ((IUnknown_Release Iface.ISFHelper_iface ⟨1, none⟩ []).1 : Int) = 0 ∧
    (IUnknown_Release Iface.ISFHelper_iface ⟨1, none⟩ []).2
      = (none, [Event.SHFree_pidl none, Event.SHFree_RecycleBin]) ∧
    (IUnknown_QueryInterface Iface.ISFHelper_iface ⟨1, none⟩ IID_IUnknown).2.2 = ⟨2, none⟩ :=
  have h := RecycleBin_refCount_faithful Iface.ISFHelper_iface ⟨1, none⟩ IID_IUnknown []
    (by decide) (by decide)
  ⟨h.1, h.2.2.1, h.2.2.2.1 (by decide), h.2.2.2.2.2.2.2.1 (by decide)⟩

/-! ### RecycleBin_Constructor -/

/-- C3: with a non-NULL `pUnkOuter` RecycleBin_Constructor returns CLASS_E_NOAGGREGATION,
creates no object, makes no call and leaves `*ppOutput` as it was; with a NULL `pUnkOuter`, a
supported id and a successful allocation it returns S_OK, `*ppOutput` points at the new object,
whose count is 1 and whose pidl is NULL; with a NULL `pUnkOuter`, an unsupported id and a
successful allocation it returns E_NOINTERFACE, stores NULL in `*ppOutput` and destroys the
object it allocated. -/
theorem RecycleBin_Constructor_contract (env : Env) (pUnkOuter : Option Nat) (riid : GUID)
    (ppOutput : Option Iface) (tr : Trace) :
    (pUnkOuter ≠ none →
      RecycleBin_Constructor env pUnkOuter riid ppOutput tr
        = ⟨CLASS_E_NOAGGREGATION, ppOutput, none, tr⟩) ∧
    (pUnkOuter = none → SupportedIID riid → env.SHAlloc tr = true →
      ∃ iface, RecycleBin_Constructor env pUnkOuter riid ppOutput tr
        = ⟨S_OK, some iface, some ⟨1, none⟩, tr ++ [Event.SHAlloc true]⟩) ∧
    (pUnkOuter = none → ¬ SupportedIID riid → env.SHAlloc tr = true →
      RecycleBin_Constructor env pUnkOuter riid ppOutput tr
        = ⟨E_NOINTERFACE, none, none,
            tr ++ [Event.SHAlloc true, Event.SHFree_pidl none, Event.SHFree_RecycleBin]⟩) := by
  refine ⟨?_, ?_, ?_⟩
  · intro h
    cases pUnkOuter with
    | none => exact absurd rfl h
    | some a => rfl
  · intro h hs ha
    subst h
    rcases RecycleBin_QueryInterface_cases ⟨0, none⟩ riid with ⟨_, h1, h2, h3⟩ | ⟨hn, _⟩
    · obtain ⟨iface, hi⟩ := Option.ne_none_iff_exists'.mp h2
      refine ⟨iface, ?_⟩
      have hq : RecycleBin_QueryInterface ⟨0, none⟩ riid = (S_OK, some iface, ⟨1, none⟩) := by
        rw [← h1, ← hi, ← show (RecycleBin_QueryInterface ⟨0, none⟩ riid).2.2 = ⟨1, none⟩ from
          h3.trans rfl]
      simp [RecycleBin_Constructor, ha, IUnknown_QueryInterface,
        RecycleBin_IPersistFolder2_QueryInterface, hq, FAILED, S_OK]
    · exact absurd hs hn
  · intro h hs ha
    subst h
    rcases RecycleBin_QueryInterface_cases ⟨0, none⟩ riid with ⟨hy, _⟩ | ⟨_, hq⟩
    · exact absurd hy hs
    · simp [RecycleBin_Constructor, ha, IUnknown_QueryInterface,
        RecycleBin_IPersistFolder2_QueryInterface, hq, FAILED, E_NOINTERFACE,
        RecycleBin_Destructor]

/-- C3 at concrete inputs: an outer unknown, a supported id and an unsupported id. -/
theorem RecycleBin_Constructor_contract_witness :
    RecycleBin_Constructor sampleEnv (some 7) IID_IUnknown (some Iface.ISFHelper_iface) []
      = ⟨CLASS_E_NOAGGREGATION, some Iface.ISFHelper_iface, none, []⟩ ∧
    (∃ iface, RecycleBin_Constructor sampleEnv none IID_IPersistFolder2 none []
      = ⟨S_OK, some iface, some ⟨1, none⟩, [Event.SHAlloc true]⟩) ∧
    RecycleBin_Constructor sampleEnv none ⟨0, 0, 0, []⟩ (some Iface.ISFHelper_iface) []
      = ⟨E_NOINTERFACE, none, none,
          [Event.SHAlloc true, Event.SHFree_pidl none, Event.SHFree_RecycleBin]⟩ :=
  ⟨(RecycleBin_Constructor_contract sampleEnv (some 7) IID_IUnknown
      (some Iface.ISFHelper_iface) []).1 (by decide),
   (RecycleBin_Constructor_contract sampleEnv none IID_IPersistFolder2 none []).2.1
      rfl (by decide) rfl,
   (RecycleBin_Constructor_contract sampleEnv none ⟨0, 0, 0, []⟩
      (some Iface.ISFHelper_iface) []).2.2 rfl (by decide) rfl⟩

/-! ### Reading a trace: rules -/

/-- The released enumerators of a trace made of two parts. -/
theorem released_append (a b : Trace) : released (a ++ b) = released a ++ released b := by
  simp [released, List.filterMap_append]

/-- The freed pointers of a trace made of two parts. -/
theorem freed_append (a b : Trace) : freed (a ++ b) = freed a ++ freed b := by
  simp [freed, List.filterMap_append]

/-- Adding items releases no enumerator. -/
theorem released_map_AddToEnumList (l : List ITEMIDLIST) (ok : Bool) :
    released (l.map (fun p => Event.AddToEnumList p ok)) = [] := by
  induction l with
  | nil => rfl
  | cons p l ih => simp [released, List.filterMap_cons, Event.released]

/-- Adding items frees nothing. -/
theorem freed_map_AddToEnumList (l : List ITEMIDLIST) (ok : Bool) :
    freed (l.map (fun p => Event.AddToEnumList p ok)) = [] := by
  induction l with
  | nil => rfl
  | cons p l ih => simp [freed, List.filterMap_cons, Event.freed]

/-- Freeing items releases no enumerator. -/
theorem released_map_ILFree (l : List ITEMIDLIST) :
    released (l.map (fun p => Event.ILFree (some p))) = [] := by
  induction l with
  | nil => rfl
  | cons p l ih => simp [released, List.filterMap_cons, Event.released]

/-- Freeing the items of a list frees exactly these items, in order. -/
theorem freed_map_ILFree (l : List ITEMIDLIST) :
    freed (l.map (fun p => Event.ILFree (some p))) = l.map some := by
  induction l with
  | nil => rfl
  | cons p l ih => simpa [freed, List.filterMap_cons, Event.freed] using ih

/-! ### RecycleBin_EnumObjects -/

/-- S_OK is not a failure. -/
theorem FAILED_S_OK : FAILED S_OK = false := by decide

/-- E_OUTOFMEMORY is a failure. -/
theorem FAILED_E_OUTOFMEMORY : FAILED E_OUTOFMEMORY = true := by decide

/-- The loop of RecycleBin_EnumObjects either adds every entry, or stops at the first entry
that AddToEnumList refuses, having added the entries before it. -/
theorem EnumObjects_loop_spec (env : Env) (rest : List ITEMIDLIST) :
    ∀ (i : Nat) (list : IEnumIDList) (tr : Trace),
      EnumObjects_loop env rest i list tr
        = (true, i + rest.length, list ++ rest,
            tr ++ rest.map (fun p => Event.AddToEnumList p true)) ∨
      ∃ k p, rest[k]? = some p ∧
        EnumObjects_loop env rest i list tr
          = (false, i + k, list ++ rest.take k,
              tr ++ (rest.take k).map (fun p => Event.AddToEnumList p true)
                ++ [Event.AddToEnumList p false]) := by
  induction rest with
  | nil => intro i list tr; left; simp [EnumObjects_loop]
  | cons q rest ih =>
    intro i list tr
    by_cases hq : env.AddToEnumList tr q = true
    · rcases ih (i + 1) (list ++ [q]) (tr ++ [Event.AddToEnumList q true]) with h | ⟨k, p, hk, h⟩
      · left
        simp only [EnumObjects_loop, AddToEnumList, hq, if_true, h]
        simp [Nat.add_assoc, Nat.add_comm 1]
      · right
        refine ⟨k + 1, p, by simpa using hk, ?_⟩
        simp only [EnumObjects_loop, AddToEnumList, hq, if_true, h]
        simp [Nat.add_assoc, Nat.add_comm 1]
    · right
      have hq0 : env.AddToEnumList tr q = false := by simpa using hq
      refine ⟨0, q, by simp, ?_⟩
      simp [EnumObjects_loop, AddToEnumList, hq0]

/-- When AddToEnumList never refuses an entry, the loop adds every entry. -/
theorem EnumObjects_loop_ok (env : Env) (ha : ∀ t p, env.AddToEnumList t p = true)
    (rest : List ITEMIDLIST) :
    ∀ (i : Nat) (list : IEnumIDList) (tr : Trace),
      EnumObjects_loop env rest i list tr
        = (true, i + rest.length, list ++ rest,
            tr ++ rest.map (fun p => Event.AddToEnumList p true)) := by
  induction rest with
  | nil => intro i list tr; simp [EnumObjects_loop]
  | cons q rest ih =>
    intro i list tr
    simp only [EnumObjects_loop, AddToEnumList, ha, if_true, ih]
    simp [Nat.add_assoc, Nat.add_comm 1]

/-- C4: when every allocation succeeds (the enumerator can always be created and AddToEnumList
always finds room): with the SHCONTF_NONFOLDERS bit set and TRASH_EnumItems succeeding,
RecycleBin_EnumObjects returns S_OK and the enumerator holds exactly the items TRASH_EnumItems
produced, in the same order, each added by one AddToEnumList call; with the bit clear it
returns S_OK with an empty enumerator and its only call is the creation of the enumerator, so
TRASH_EnumItems is not called. -/
theorem RecycleBin_EnumObjects_adapts (env : Env) (grfFlags : Nat) (tr : Trace)
    (hc : ∀ t, env.IEnumIDList_Constructor t = true)
    (ha : ∀ t p, env.AddToEnumList t p = true) :
    (grfFlags &&& SHCONTF_NONFOLDERS ≠ 0 → SUCCEEDED (env.TRASH_EnumItems tr).1 = true →
      RecycleBin_EnumObjects env grfFlags tr
        = ⟨S_OK, some (env.TRASH_EnumItems tr).2,
            tr ++ [Event.TRASH_EnumItems (env.TRASH_EnumItems tr).1 (env.TRASH_EnumItems tr).2,
                   Event.IEnumIDList_Constructor true]
               ++ (env.TRASH_EnumItems tr).2.map (fun p => Event.AddToEnumList p true)⟩) ∧
    (grfFlags &&& SHCONTF_NONFOLDERS = 0 →
      RecycleBin_EnumObjects env grfFlags tr
        = ⟨S_OK, some [], tr ++ [Event.IEnumIDList_Constructor true]⟩ ∧
      ((RecycleBin_EnumObjects env grfFlags tr).trace.drop tr.length).all
        (fun e => !e.isEnumItems) = true) := by
  constructor
  · intro hb hs
    have hnf : FAILED (env.TRASH_EnumItems tr).1 = false := by
      simp only [SUCCEEDED, decide_eq_true_eq] at hs
      simp only [FAILED, decide_eq_false_iff_not]
      exact not_lt.mpr hs
    simp [RecycleBin_EnumObjects, hb, hnf, hc, EnumObjects_loop_ok env ha]
  · intro hb
    have h : RecycleBin_EnumObjects env grfFlags tr
        = ⟨S_OK, some [], tr ++ [Event.IEnumIDList_Constructor true]⟩ := by
      simp [RecycleBin_EnumObjects, hb, hc]
    refine ⟨h, ?_⟩
    rw [h]
    simp [Event.isEnumItems]

/-- C4 for the sample collaborators: the two trash items reach the enumerator in order, and
without the SHCONTF_NONFOLDERS bit the enumerator is empty. -/
theorem RecycleBin_EnumObjects_adapts_witness :
    RecycleBin_EnumObjects sampleEnv 0x40 []
      = ⟨S_OK, some [sampleItem 1, sampleItem 2],
          [Event.TRASH_EnumItems S_OK [sampleItem 1, sampleItem 2],
           Event.IEnumIDList_Constructor true,
           Event.AddToEnumList (sampleItem 1) true,
           Event.AddToEnumList (sampleItem 2) true]⟩ ∧
    RecycleBin_EnumObjects sampleEnv 0x20 [] = ⟨S_OK, some [], [Event.IEnumIDList_Constructor true]⟩ :=
  ⟨(RecycleBin_EnumObjects_adapts sampleEnv 0x40 [] (fun _ => rfl) (fun _ _ => rfl)).1
      (by decide) (by decide),
   ((RecycleBin_EnumObjects_adapts sampleEnv 0x20 [] (fun _ => rfl) (fun _ _ => rfl)).2
      (by decide)).1⟩

/-- Whatever the allocations do, a call that returns S_OK with the SHCONTF_NONFOLDERS bit set
hands out an enumerator holding exactly the items TRASH_EnumItems produced, in order. -/
theorem RecycleBin_EnumObjects_S_OK (env : Env) (grfFlags : Nat) (tr : Trace)
    (hb : grfFlags &&& SHCONTF_NONFOLDERS ≠ 0)
    (hs : (RecycleBin_EnumObjects env grfFlags tr).hr = S_OK) :
    (RecycleBin_EnumObjects env grfFlags tr).ppenumIDList = some (env.TRASH_EnumItems tr).2 := by
  revert hs
  simp only [RecycleBin_EnumObjects, hb, if_true, ne_eq, not_false_eq_true]
  by_cases hf : FAILED (env.TRASH_EnumItems tr).1 = true
  · simp only [hf, if_true]
    intro hs
    rw [hs] at hf
    exact absurd hf (by decide)
  · simp only [hf]
    by_cases hc : env.IEnumIDList_Constructor
        (tr ++ [Event.TRASH_EnumItems (env.TRASH_EnumItems tr).1 (env.TRASH_EnumItems tr).2]) = true
    · rcases EnumObjects_loop_spec env (env.TRASH_EnumItems tr).2 0 []
          (tr ++ [Event.TRASH_EnumItems (env.TRASH_EnumItems tr).1 (env.TRASH_EnumItems tr).2]
            ++ [Event.IEnumIDList_Constructor true]) with h | ⟨k, p, _, h⟩
      · simp only [List.append_assoc, List.cons_append, List.nil_append] at h
        simp [hc, h]
      · simp only [List.append_assoc, List.cons_append, List.nil_append] at h
        simp [hc, h, EnumObjects_failed, E_OUTOFMEMORY, S_OK]
    · simp [hc, EnumObjects_failed, E_OUTOFMEMORY, S_OK]

/-- C5: every failing return of RecycleBin_EnumObjects leaves `*ppenumIDList` NULL. With the
SHCONTF_NONFOLDERS bit set: if TRASH_EnumItems fails, its HRESULT is returned unchanged and
nothing else is called; if the enumerator cannot be created, the result is E_OUTOFMEMORY, no
enumerator is released and all item id lists are freed; if the call fails after the enumerator
was created, AddToEnumList refused the item at some index `i` after taking the items before it,
the result is E_OUTOFMEMORY, the enumerator released holds exactly the items before index `i`
and exactly the items at the indices from `i` on are freed. With the bit clear, a failure to
create the enumerator gives E_OUTOFMEMORY. -/
theorem RecycleBin_EnumObjects_failure (env : Env) (grfFlags : Nat) (tr : Trace) :
    (FAILED (RecycleBin_EnumObjects env grfFlags tr).hr = true →
      (RecycleBin_EnumObjects env grfFlags tr).ppenumIDList = none) ∧
    (grfFlags &&& SHCONTF_NONFOLDERS ≠ 0 → FAILED (env.TRASH_EnumItems tr).1 = true →
      RecycleBin_EnumObjects env grfFlags tr
        = ⟨(env.TRASH_EnumItems tr).1, none,
            tr ++ [Event.TRASH_EnumItems (env.TRASH_EnumItems tr).1 (env.TRASH_EnumItems tr).2]⟩) ∧
    (grfFlags &&& SHCONTF_NONFOLDERS ≠ 0 → FAILED (env.TRASH_EnumItems tr).1 = false →
      env.IEnumIDList_Constructor
        (tr ++ [Event.TRASH_EnumItems (env.TRASH_EnumItems tr).1 (env.TRASH_EnumItems tr).2])
        = false →
      RecycleBin_EnumObjects env grfFlags tr
        = ⟨E_OUTOFMEMORY, none,
            tr ++ [Event.TRASH_EnumItems (env.TRASH_EnumItems tr).1 (env.TRASH_EnumItems tr).2,
                   Event.IEnumIDList_Constructor false]
               ++ (env.TRASH_EnumItems tr).2.map (fun p => Event.ILFree (some p))
               ++ [Event.SHFree_array (env.TRASH_EnumItems tr).2]⟩ ∧
      released ((RecycleBin_EnumObjects env grfFlags tr).trace.drop tr.length) = [] ∧
      freed ((RecycleBin_EnumObjects env grfFlags tr).trace.drop tr.length)
        = (env.TRASH_EnumItems tr).2.map some) ∧
    (grfFlags &&& SHCONTF_NONFOLDERS ≠ 0 → FAILED (env.TRASH_EnumItems tr).1 = false →
      env.IEnumIDList_Constructor
        (tr ++ [Event.TRASH_EnumItems (env.TRASH_EnumItems tr).1 (env.TRASH_EnumItems tr).2])
        = true →
      FAILED (RecycleBin_EnumObjects env grfFlags tr).hr = true →
      ∃ i p, (env.TRASH_EnumItems tr).2[i]? = some p ∧
        RecycleBin_EnumObjects env grfFlags tr
          = ⟨E_OUTOFMEMORY, none,
              tr ++ [Event.TRASH_EnumItems (env.TRASH_EnumItems tr).1 (env.TRASH_EnumItems tr).2,
                     Event.IEnumIDList_Constructor true]
                 ++ ((env.TRASH_EnumItems tr).2.take i).map (fun p => Event.AddToEnumList p true)
                 ++ [Event.AddToEnumList p false,
                     Event.IEnumIDList_Release ((env.TRASH_EnumItems tr).2.take i)]
                 ++ ((env.TRASH_EnumItems tr).2.drop i).map (fun p => Event.ILFree (some p))
                 ++ [Event.SHFree_array (env.TRASH_EnumItems tr).2]⟩ ∧
        released ((RecycleBin_EnumObjects env grfFlags tr).trace.drop tr.length)
          = [(env.TRASH_EnumItems tr).2.take i] ∧
        freed ((RecycleBin_EnumObjects env grfFlags tr).trace.drop tr.length)
          = ((env.TRASH_EnumItems tr).2.drop i).map some) ∧
    (grfFlags &&& SHCONTF_NONFOLDERS = 0 → env.IEnumIDList_Constructor tr = false →
      RecycleBin_EnumObjects env grfFlags tr
        = ⟨E_OUTOFMEMORY, none, tr ++ [Event.IEnumIDList_Constructor false]⟩) := by
  have loop := EnumObjects_loop_spec env (env.TRASH_EnumItems tr).2 0 []
    (tr ++ [Event.TRASH_EnumItems (env.TRASH_EnumItems tr).1 (env.TRASH_EnumItems tr).2]
      ++ [Event.IEnumIDList_Constructor true])
  simp only [List.append_assoc, List.cons_append, List.nil_append, Nat.zero_add] at loop
  refine ⟨?_, ?_, ?_, ?_, ?_⟩
  · by_cases hb : grfFlags &&& SHCONTF_NONFOLDERS = 0
    · by_cases hc : env.IEnumIDList_Constructor tr = true
      · simp [RecycleBin_EnumObjects, hb, hc, FAILED_S_OK]
      · simp [RecycleBin_EnumObjects, hb, hc]
    · by_cases hf : FAILED (env.TRASH_EnumItems tr).1 = true
      · simp [RecycleBin_EnumObjects, hb, hf]
      · by_cases hc : env.IEnumIDList_Constructor
            (tr ++ [Event.TRASH_EnumItems (env.TRASH_EnumItems tr).1 (env.TRASH_EnumItems tr).2])
            = true
        · rcases loop with h | ⟨k, p, _, h⟩
          · simp [RecycleBin_EnumObjects, hb, hf, hc, h, FAILED_S_OK]
          · simp [RecycleBin_EnumObjects, hb, hf, hc, h, EnumObjects_failed]
        · simp [RecycleBin_EnumObjects, hb, hf, hc, EnumObjects_failed]
  · intro hb hf
    simp [RecycleBin_EnumObjects, hb, hf]
  · intro hb hf hc
    have h : RecycleBin_EnumObjects env grfFlags tr
        = ⟨E_OUTOFMEMORY, none,
            tr ++ [Event.TRASH_EnumItems (env.TRASH_EnumItems tr).1 (env.TRASH_EnumItems tr).2,
                   Event.IEnumIDList_Constructor false]
               ++ (env.TRASH_EnumItems tr).2.map (fun p => Event.ILFree (some p))
               ++ [Event.SHFree_array (env.TRASH_EnumItems tr).2]⟩ := by
      simp [RecycleBin_EnumObjects, hb, hf, hc, EnumObjects_failed]
    refine ⟨h, ?_, ?_⟩
    · rw [h]
      simp only [List.append_assoc, List.drop_left, released_append, released_map_ILFree]
      simp [released, Event.released]
    · rw [h]
      simp only [List.append_assoc, List.drop_left, freed_append, freed_map_ILFree]
      simp [freed, Event.freed]
  · intro hb hf hc hfail
    rcases loop with h | ⟨k, p, hk, h⟩
    · simp [RecycleBin_EnumObjects, hb, hf, hc, h, FAILED_S_OK] at hfail
    · have hr : RecycleBin_EnumObjects env grfFlags tr
          = ⟨E_OUTOFMEMORY, none,
              tr ++ [Event.TRASH_EnumItems (env.TRASH_EnumItems tr).1 (env.TRASH_EnumItems tr).2,
                     Event.IEnumIDList_Constructor true]
                 ++ ((env.TRASH_EnumItems tr).2.take k).map (fun p => Event.AddToEnumList p true)
                 ++ [Event.AddToEnumList p false,
                     Event.IEnumIDList_Release ((env.TRASH_EnumItems tr).2.take k)]
                 ++ ((env.TRASH_EnumItems tr).2.drop k).map (fun p => Event.ILFree (some p))
                 ++ [Event.SHFree_array (env.TRASH_EnumItems tr).2]⟩ := by
        simp [RecycleBin_EnumObjects, hb, hf, hc, h, EnumObjects_failed]
      refine ⟨k, p, hk, hr, ?_, ?_⟩
      · rw [hr]
        simp only [List.append_assoc, List.drop_left, released_append, released_map_ILFree,
          released_map_AddToEnumList]
        simp [released, Event.released]
      · rw [hr]
        simp only [List.append_assoc, List.drop_left, freed_append, freed_map_ILFree,
          freed_map_AddToEnumList]
        simp [freed, Event.freed]
  · intro hb hc
    simp [RecycleBin_EnumObjects, hb, hc]

/-- C5 for sample collaborators: an enumerator that refuses the second of two items is released
holding the first, and the second is freed; a failing trash engine has its result returned. -/
theorem RecycleBin_EnumObjects_failure_witness :
    (∃ i p, [sampleItem 1, sampleItem 2][i]? = some p ∧
      RecycleBin_EnumObjects sampleEnvFull 0x40 []
        = ⟨E_OUTOFMEMORY, none,
            [] ++ [Event.TRASH_EnumItems S_OK [sampleItem 1, sampleItem 2],
                   Event.IEnumIDList_Constructor true]
               ++ ([sampleItem 1, sampleItem 2].take i).map (fun p => Event.AddToEnumList p true)
               ++ [Event.AddToEnumList p false,
                   Event.IEnumIDList_Release ([sampleItem 1, sampleItem 2].take i)]
               ++ ([sampleItem 1, sampleItem 2].drop i).map (fun p => Event.ILFree (some p))
               ++ [Event.SHFree_array [sampleItem 1, sampleItem 2]]⟩ ∧
      released ((RecycleBin_EnumObjects sampleEnvFull 0x40 []).trace.drop 0)
        = [[sampleItem 1, sampleItem 2].take i] ∧
      freed ((RecycleBin_EnumObjects sampleEnvFull 0x40 []).trace.drop 0)
        = ([sampleItem 1, sampleItem 2].drop i).map some) ∧
    RecycleBin_EnumObjects sampleEnvNoTrash 0x40 []
      = ⟨E_FAIL, none, [Event.TRASH_EnumItems E_FAIL []]⟩ ∧
    (RecycleBin_EnumObjects sampleEnvFull 0x40 []).ppenumIDList = none :=
  ⟨(RecycleBin_EnumObjects_failure sampleEnvFull 0x40 []).2.2.2.1
      (by decide) (by decide) rfl (by decide),
   (RecycleBin_EnumObjects_failure sampleEnvNoTrash 0x40 []).2.1 (by decide) (by decide),
   (RecycleBin_EnumObjects_failure sampleEnvFull 0x40 []).1 (by decide)⟩

/-! ### erase_items -/

/-- The erase calls of a trace made of two parts. -/
theorem eraseCalls_append (a b : Trace) : eraseCalls (a ++ b) = eraseCalls a ++ eraseCalls b := by
  simp [eraseCalls, List.filterMap_append]

/-- The notifications of a trace made of two parts. -/
theorem notifications_append (a b : Trace) :
    notifications (a ++ b) = notifications a ++ notifications b := by
  simp [notifications, List.filterMap_append]

/-- The message box answers of a trace made of two parts. -/
theorem answers_append (a b : Trace) : answers (a ++ b) = answers a ++ answers b := by
  simp [answers, List.filterMap_append]

/-- What the loop of erase_items adds to the trace: one TRASH_EraseItem call for each entry, in
order, a SHCNE_DELETE notification for each call that succeeded, and no message box. -/
theorem erase_items_loop_spec (env : Env) (recyclebin : Option ITEMIDLIST)
    (rest : List ITEMIDLIST) :
    ∀ tr : Trace, ∃ new : Trace,
      erase_items_loop env recyclebin rest tr = tr ++ new ∧
      (eraseCalls new).map Prod.fst = rest ∧
      notifications new
        = ((eraseCalls new).filter (fun c => SUCCEEDED c.2)).map (fun c => (SHCNE_DELETE, c.1)) ∧
      answers new = [] := by
  induction rest with
  | nil => intro tr; exact ⟨[], by simp [erase_items_loop], rfl, rfl, rfl⟩
  | cons p rest ih =>
    intro tr
    by_cases hs : SUCCEEDED (env.TRASH_EraseItem tr p) = true
    · obtain ⟨new, h1, h2, h3, h4⟩ := ih (tr ++ [Event.TRASH_EraseItem p (env.TRASH_EraseItem tr p)]
        ++ [Event.SHChangeNotify SHCNE_DELETE SHCNF_IDLIST recyclebin p])
      refine ⟨[Event.TRASH_EraseItem p (env.TRASH_EraseItem tr p),
        Event.SHChangeNotify SHCNE_DELETE SHCNF_IDLIST recyclebin p] ++ new, ?_, ?_, ?_, ?_⟩
      · simp only [erase_items_loop, hs, if_true, h1]
        simp
      · rw [eraseCalls_append]
        simp [eraseCalls, Event.eraseCall] at h2 ⊢
        exact h2
      · rw [eraseCalls_append, notifications_append, h3]
        simp [eraseCalls, notifications, Event.eraseCall, Event.notification, hs]
      · rw [answers_append, h4]
        simp [answers, Event.answer]
    · obtain ⟨new, h1, h2, h3, h4⟩ := ih (tr ++ [Event.TRASH_EraseItem p (env.TRASH_EraseItem tr p)])
      refine ⟨[Event.TRASH_EraseItem p (env.TRASH_EraseItem tr p)] ++ new, ?_, ?_, ?_, ?_⟩
      · have hs0 : SUCCEEDED (env.TRASH_EraseItem tr p) = false := by simpa using hs
        simp [erase_items_loop, hs0, h1]
      · rw [eraseCalls_append]
        simp [eraseCalls, Event.eraseCall] at h2 ⊢
        exact h2
      · rw [eraseCalls_append, notifications_append, h3]
        simp [eraseCalls, notifications, Event.eraseCall, Event.notification, hs]
      · rw [answers_append, h4]
        simp [answers, Event.answer]

/-- What erase_items adds to the trace once it proceeds. -/
theorem erase_items_proceed_spec (env : Env) (parent : Nat) (apidl : List ITEMIDLIST)
    (tr : Trace) :
    ∃ new : Trace,
      erase_items_proceed env parent apidl tr = (S_OK, tr ++ new) ∧
      (eraseCalls new).map Prod.fst = apidl ∧
      notifications new
        = ((eraseCalls new).filter (fun c => SUCCEEDED c.2)).map (fun c => (SHCNE_DELETE, c.1)) ∧
      answers new = [] := by
  obtain ⟨new, h1, h2, h3, h4⟩ := erase_items_loop_spec env (env.SHGetFolderLocation tr parent)
    apidl (tr ++ [Event.SHGetFolderLocation parent (env.SHGetFolderLocation tr parent)])
  refine ⟨[Event.SHGetFolderLocation parent (env.SHGetFolderLocation tr parent)] ++ new
    ++ [Event.ILFree (env.SHGetFolderLocation tr parent)], ?_, ?_, ?_, ?_⟩
  · simp [erase_items_proceed, h1]
  · rw [eraseCalls_append, eraseCalls_append]
    simp [eraseCalls, Event.eraseCall] at h2 ⊢
    exact h2
  · rw [eraseCalls_append, eraseCalls_append, notifications_append, notifications_append, h3]
    simp [eraseCalls, notifications, Event.eraseCall, Event.notification]
  · rw [answers_append, answers_append, h4]
    simp [answers, Event.answer]

/-- What the confirmation step of erase_items adds to the trace: one message box and, only
when its answer is IDYES, what proceeding adds. -/
theorem erase_items_ask_spec (env : Env) (parent : Nat) (apidl : List ITEMIDLIST)
    (message : ResourceId) (arg : List Nat) (tr : Trace) :
    ∃ (a : Int) (new : Trace),
      erase_items_ask env parent apidl message arg tr = (S_OK, tr ++ new) ∧
      answers new = [a] ∧
      (a ≠ IDYES → eraseCalls new = [] ∧ notifications new = []) ∧
      (a = IDYES → (eraseCalls new).map Prod.fst = apidl ∧
        notifications new
          = ((eraseCalls new).filter (fun c => SUCCEEDED c.2)).map
              (fun c => (SHCNE_DELETE, c.1))) := by
  by_cases ha : env.ShellMessageBoxW tr parent message ResourceId.IDS_RECYCLEBIN_ERASE_CAPTION
      (MB_YESNO ||| MB_ICONEXCLAMATION) arg = IDYES
  · obtain ⟨new, h1, h2, h3, h4⟩ := erase_items_proceed_spec env parent apidl
      (tr ++ [Event.ShellMessageBoxW parent message ResourceId.IDS_RECYCLEBIN_ERASE_CAPTION
        (MB_YESNO ||| MB_ICONEXCLAMATION) arg IDYES])
    refine ⟨IDYES, [Event.ShellMessageBoxW parent message ResourceId.IDS_RECYCLEBIN_ERASE_CAPTION
        (MB_YESNO ||| MB_ICONEXCLAMATION) arg IDYES] ++ new, ?_, ?_, ?_, ?_⟩
    · simp only [erase_items_ask, ha, h1]
      simp
    · rw [answers_append, h4]
      simp [answers, Event.answer]
    · intro hne; exact absurd rfl hne
    · intro _
      rw [eraseCalls_append, notifications_append, h3]
      simp [eraseCalls, notifications, Event.eraseCall, Event.notification] at h2 ⊢
      exact h2
  · refine ⟨env.ShellMessageBoxW tr parent message ResourceId.IDS_RECYCLEBIN_ERASE_CAPTION
        (MB_YESNO ||| MB_ICONEXCLAMATION) arg,
      [Event.ShellMessageBoxW parent message ResourceId.IDS_RECYCLEBIN_ERASE_CAPTION
        (MB_YESNO ||| MB_ICONEXCLAMATION) arg
        (env.ShellMessageBoxW tr parent message ResourceId.IDS_RECYCLEBIN_ERASE_CAPTION
          (MB_YESNO ||| MB_ICONEXCLAMATION) arg)], ?_, ?_, ?_, ?_⟩
    · simp [erase_items_ask, ha]
    · simp [answers, Event.answer]
    · intro _; simp [eraseCalls, notifications, Event.eraseCall, Event.notification]
    · intro h; exact absurd h ha

/-- With confirmation and at least one item, erase_items goes through the confirmation step. -/
theorem erase_items_confirm_eq (env : Env) (parent : Nat) (apidl : List ITEMIDLIST)
    (tr : Trace) (hne : apidl ≠ []) :
    ∃ message arg,
      erase_items env parent apidl true tr = erase_items_ask env parent apidl message arg tr := by
  match apidl, hne with
  | [p], _ => exact ⟨_, _, rfl⟩
  | p :: q :: rest, _ => exact ⟨_, _, rfl⟩

/-- C8: with `confirm` TRUE erase_items never erases without consent. For no item it returns
S_OK and makes no call at all. For one item or more it shows exactly one message box, and when
the answer is anything but IDYES no TRASH_EraseItem call and no change notification is made and
the result is S_OK. RecycleBin_DeleteItems calls erase_items with `confirm` TRUE. -/
theorem erase_items_consent (env : Env) (parent : Nat) (apidl : List ITEMIDLIST) (tr : Trace) :
    erase_items env parent [] true tr = (S_OK, tr) ∧
    (apidl ≠ [] →
      ∃ (a : Int) (new : Trace),
        erase_items env parent apidl true tr = (S_OK, tr ++ new) ∧
        answers new = [a] ∧
        (a ≠ IDYES → eraseCalls new = [] ∧ notifications new = [])) ∧
    RecycleBin_DeleteItems env apidl tr
      = erase_items env (env.GetActiveWindow tr) apidl true tr := by
  refine ⟨rfl, ?_, rfl⟩
  intro hne
  obtain ⟨message, arg, he⟩ := erase_items_confirm_eq env parent apidl tr hne
  obtain ⟨a, new, h1, h2, h3, _⟩ := erase_items_ask_spec env parent apidl message arg tr
  exact ⟨a, new, he.trans h1, h2, h3⟩

/-- C8 for a user who answers IDNO: one message box, nothing erased. -/
theorem erase_items_consent_witness :
    (∃ (a : Int) (new : Trace),
      erase_items sampleEnvNo 0 [sampleItem 1, sampleItem 2] true [] = (S_OK, [] ++ new) ∧
      answers new = [a] ∧
      (a ≠ IDYES → eraseCalls new = [] ∧ notifications new = [])) ∧
    erase_items sampleEnvNo 0 [sampleItem 1, sampleItem 2] true []
      = (S_OK, [Event.ShellMessageBoxW 0 ResourceId.IDS_RECYCLEBIN_ERASEMULTIPLE
          ResourceId.IDS_RECYCLEBIN_ERASE_CAPTION 0x34 [50] 7]) :=
  ⟨(erase_items_consent sampleEnvNo 0 [sampleItem 1, sampleItem 2] []).2.1 (by decide), by decide⟩

/-- C9: whenever erase_items proceeds, that is when `confirm` is FALSE or the one message box
was answered IDYES, TRASH_EraseItem is called exactly once for each item of `apidl`, in order;
a SHCNE_DELETE notification is issued for exactly the items whose call succeeded; a failed call
does not stop the loop; and the result is S_OK whatever the calls returned. -/
theorem erase_items_erases_all (env : Env) (parent : Nat) (apidl : List ITEMIDLIST)
    (confirm : Bool) (tr : Trace) :
    ∃ new : Trace,
      erase_items env parent apidl confirm tr = (S_OK, tr ++ new) ∧
      ((confirm = false ∨ answers new = [IDYES]) →
        (eraseCalls new).map Prod.fst = apidl ∧
        notifications new
          = ((eraseCalls new).filter (fun c => SUCCEEDED c.2)).map
              (fun c => (SHCNE_DELETE, c.1))) := by
  cases confirm with
  | false =>
    obtain ⟨new, h1, h2, h3, _⟩ := erase_items_proceed_spec env parent apidl tr
    exact ⟨new, by simpa [erase_items] using h1, fun _ => ⟨h2, h3⟩⟩
  | true =>
    by_cases hne : apidl = []
    · subst hne
      exact ⟨[], by simp [erase_items], fun _ => ⟨rfl, rfl⟩⟩
    · obtain ⟨message, arg, he⟩ := erase_items_confirm_eq env parent apidl tr hne
      obtain ⟨a, new, h1, h2, _, h4⟩ := erase_items_ask_spec env parent apidl message arg tr
      refine ⟨new, he.trans h1, ?_⟩
      rintro (h | h)
      · exact absurd h (by decide)
      · rw [h2] at h
        exact h4 (List.singleton_inj.mp h)

/-- C9 for a user who answers IDYES and a trash engine that cannot erase the first of two
items: both items are tried, in order, and only the second is notified. -/
theorem erase_items_erases_all_witness :
    erase_items sampleEnv 0 [sampleItem 1, sampleItem 2] true []
      = (S_OK, [Event.ShellMessageBoxW 0 ResourceId.IDS_RECYCLEBIN_ERASEMULTIPLE
          ResourceId.IDS_RECYCLEBIN_ERASE_CAPTION 0x34 [50] 6,
        Event.SHGetFolderLocation 0 (some []),
        Event.TRASH_EraseItem (sampleItem 1) E_FAIL,
        Event.TRASH_EraseItem (sampleItem 2) S_OK,
        Event.SHChangeNotify SHCNE_DELETE SHCNF_IDLIST (some []) (sampleItem 2),
        Event.ILFree (some [])]) ∧
    ∃ new : Trace,
      erase_items sampleEnv 0 [sampleItem 1, sampleItem 2] false [] = (S_OK, [] ++ new) ∧
      (eraseCalls new).map Prod.fst = [sampleItem 1, sampleItem 2] ∧
      notifications new
        = ((eraseCalls new).filter (fun c => SUCCEEDED c.2)).map
            (fun c => (SHCNE_DELETE, c.1)) :=
  ⟨by decide,
   (erase_items_erases_all sampleEnv 0 [sampleItem 1, sampleItem 2] false []).imp
     (fun _ h => ⟨h.1, h.2 (Or.inl rfl)⟩)⟩

/-! ### SHQueryRecycleBinW -/

/-- One step of the size computation: the 64-bit sum of a running total below 2^64 and the size
of an item is their sum modulo 2^64. -/
theorem i64Size_step (env : Env) (p : ITEMIDLIST) (acc : Nat) :
    toDWORDLONG (acc + toDWORDLONG
      (toDWORDLONG ((env.TRASH_UnpackItemID p.mkid).nFileSizeHigh.val <<< 32)
        + (env.TRASH_UnpackItemID p.mkid).nFileSizeLow.val))
      = (acc + itemSize env p) % 18446744073709551616 := by
  have hh := (env.TRASH_UnpackItemID p.mkid).nFileSizeHigh.isLt
  have hl := (env.TRASH_UnpackItemID p.mkid).nFileSizeLow.isLt
  simp only [toDWORDLONG, itemSize, Nat.shiftLeft_eq]
  omega

/-- The loop of SHQueryRecycleBinW adds the sizes of the entries modulo 2^64 and frees each
entry. -/
theorem SHQueryRecycleBinW_loop_spec (env : Env) (rest : List ITEMIDLIST) :
    ∀ (acc : Nat) (tr : Trace), acc < 18446744073709551616 →
      SHQueryRecycleBinW_loop env rest acc tr
        = ((acc + (rest.map (itemSize env)).sum) % 18446744073709551616,
            tr ++ rest.map (fun p => Event.ILFree (some p))) := by
  induction rest with
  | nil =>
    intro acc tr h
    simp [SHQueryRecycleBinW_loop, Nat.mod_eq_of_lt h]
  | cons p rest ih =>
    intro acc tr h
    simp only [SHQueryRecycleBinW_loop, i64Size_step]
    rw [ih _ _ (Nat.mod_lt _ (by decide))]
    simp [Nat.add_assoc]

/-- C6: for the items TRASH_EnumItems hands over (in particular whenever it succeeds; its
result is not looked at), SHQueryRecycleBinW returns S_OK, stores their number in `i64NumItems`
and, in `i64Size`, the sum over the items of `nFileSizeHigh * 2^32 + nFileSizeLow` from each
item's unpacked data, modulo 2^64; the outcome is the same for every `pszRootPath`; for an
empty trash both members are 0. -/
theorem SHQueryRecycleBinW_totals (env : Env) (pszRootPath : Option (List Nat))
    (info : SHQUERYRBINFO) (tr : Trace) :
    (SHQueryRecycleBinW env pszRootPath info tr).1 = S_OK ∧
    (SHQueryRecycleBinW env pszRootPath info tr).2.1.i64NumItems
      = (env.TRASH_EnumItems tr).2.length ∧
    (SHQueryRecycleBinW env pszRootPath info tr).2.1.i64Size
      = (((env.TRASH_EnumItems tr).2.map (itemSize env)).sum) % 18446744073709551616 ∧
    (∀ other : Option (List Nat),
      SHQueryRecycleBinW env other info tr = SHQueryRecycleBinW env pszRootPath info tr) ∧
    ((env.TRASH_EnumItems tr).2.length = 0 →
      (SHQueryRecycleBinW env pszRootPath info tr).2.1.i64NumItems = 0 ∧
      (SHQueryRecycleBinW env pszRootPath info tr).2.1.i64Size = 0) := by
  have h := SHQueryRecycleBinW_loop_spec env (env.TRASH_EnumItems tr).2 0
    (tr ++ [Event.TRASH_EnumItems (env.TRASH_EnumItems tr).1 (env.TRASH_EnumItems tr).2])
    (by decide)
  refine ⟨rfl, rfl, ?_, fun _ => rfl, ?_⟩
  · simp [SHQueryRecycleBinW, h]
  · intro h0
    have hnil : (env.TRASH_EnumItems tr).2 = [] := List.length_eq_zero.mp h0
    simp [SHQueryRecycleBinW, hnil, SHQueryRecycleBinW_loop]

/-- C6 for the sample trash: two items of sizes 2^32 + 5 and 5. -/
theorem SHQueryRecycleBinW_totals_witness :
    (SHQueryRecycleBinW sampleEnv none ⟨0, 9, 9⟩ []).1 = S_OK ∧
    (SHQueryRecycleBinW sampleEnv none ⟨0, 9, 9⟩ []).2.1.i64NumItems = 2 ∧
    (SHQueryRecycleBinW sampleEnv none ⟨0, 9, 9⟩ []).2.1.i64Size = 4294967306 :=
  have h := SHQueryRecycleBinW_totals sampleEnv none ⟨0, 9, 9⟩ []
  ⟨h.1, h.2.1, h.2.2.1.trans (by decide)⟩

/-! ### SHEmptyRecycleBinW -/

/-- The confirmation flag SHEmptyRecycleBinW computes is the negation of bit 0 of `dwFlags`. -/
theorem confirm_eq_not_testBit (dwFlags : Nat) :
    (dwFlags &&& SHERB_NOCONFIRMATION == 0) = !dwFlags.testBit 0 := by
  simp only [SHERB_NOCONFIRMATION, Nat.and_one_is_mod, Nat.testBit_zero]
  rcases Nat.mod_two_eq_zero_or_one dwFlags with h | h <;> simp [h]

/-- Freeing items shows no message box. -/
theorem answers_map_ILFree (l : List ITEMIDLIST) :
    answers (l.map (fun p => Event.ILFree (some p))) = [] := by
  induction l with
  | nil => rfl
  | cons p l ih => simp [answers, List.filterMap_cons, Event.answer]

/-- C7: SHEmptyRecycleBinW hands all the items enumerated by TRASH_EnumItems, in order, to
erase_items and returns its result (afterwards it frees the items and the array); the
confirmation flag it passes is TRUE exactly when bit 0 of `dwFlags` (SHERB_NOCONFIRMATION) is
clear, so that for a trash that is not empty a message box is shown exactly when that bit is
clear; two calls that agree on that bit have the same outcome whatever their `pszRootPath` and
their other flag bits. -/
theorem SHEmptyRecycleBinW_spec (env : Env) (hwnd : Nat) (pszRootPath : Option (List Nat))
    (dwFlags : Nat) (tr : Trace) :
    SHEmptyRecycleBinW env hwnd pszRootPath dwFlags tr
      = ((erase_items env hwnd (env.TRASH_EnumItems tr).2 (!dwFlags.testBit 0)
            (tr ++ [Event.TRASH_EnumItems (env.TRASH_EnumItems tr).1
              (env.TRASH_EnumItems tr).2])).1,
         (erase_items env hwnd (env.TRASH_EnumItems tr).2 (!dwFlags.testBit 0)
            (tr ++ [Event.TRASH_EnumItems (env.TRASH_EnumItems tr).1
              (env.TRASH_EnumItems tr).2])).2
           ++ (env.TRASH_EnumItems tr).2.map (fun p => Event.ILFree (some p))
           ++ [Event.SHFree_array (env.TRASH_EnumItems tr).2]) ∧
    ((env.TRASH_EnumItems tr).2 ≠ [] →
      (answers ((SHEmptyRecycleBinW env hwnd pszRootPath dwFlags tr).2.drop tr.length) ≠ []
        ↔ dwFlags.testBit 0 = false)) ∧
    (∀ (otherPath : Option (List Nat)) (otherFlags : Nat),
      otherFlags.testBit 0 = dwFlags.testBit 0 →
      SHEmptyRecycleBinW env hwnd otherPath otherFlags tr
        = SHEmptyRecycleBinW env hwnd pszRootPath dwFlags tr) := by
  have heq : ∀ (path : Option (List Nat)) (flags : Nat),
      SHEmptyRecycleBinW env hwnd path flags tr
        = ((erase_items env hwnd (env.TRASH_EnumItems tr).2 (!flags.testBit 0)
              (tr ++ [Event.TRASH_EnumItems (env.TRASH_EnumItems tr).1
                (env.TRASH_EnumItems tr).2])).1,
           (erase_items env hwnd (env.TRASH_EnumItems tr).2 (!flags.testBit 0)
              (tr ++ [Event.TRASH_EnumItems (env.TRASH_EnumItems tr).1
                (env.TRASH_EnumItems tr).2])).2
             ++ (env.TRASH_EnumItems tr).2.map (fun p => Event.ILFree (some p))
             ++ [Event.SHFree_array (env.TRASH_EnumItems tr).2]) := by
    intro path flags
    simp only [SHEmptyRecycleBinW, confirm_eq_not_testBit]
  refine ⟨heq _ _, ?_, ?_⟩
  · intro hne
    rw [heq]
    cases hb : dwFlags.testBit 0 with
    | false =>
      obtain ⟨message, arg, he⟩ := erase_items_confirm_eq env hwnd (env.TRASH_EnumItems tr).2
        (tr ++ [Event.TRASH_EnumItems (env.TRASH_EnumItems tr).1 (env.TRASH_EnumItems tr).2]) hne
      obtain ⟨a, new, h1, h2, _, _⟩ := erase_items_ask_spec env hwnd (env.TRASH_EnumItems tr).2
        message arg
        (tr ++ [Event.TRASH_EnumItems (env.TRASH_EnumItems tr).1 (env.TRASH_EnumItems tr).2])
      simp only [Bool.not_false, he, h1, List.append_assoc, List.drop_left, answers_append, h2,
        answers_map_ILFree]
      simp [answers, Event.answer]
    | true =>
      obtain ⟨new, h1, _, _, h4⟩ := erase_items_proceed_spec env hwnd (env.TRASH_EnumItems tr).2
        (tr ++ [Event.TRASH_EnumItems (env.TRASH_EnumItems tr).1 (env.TRASH_EnumItems tr).2])
      have he : erase_items env hwnd (env.TRASH_EnumItems tr).2 false
          (tr ++ [Event.TRASH_EnumItems (env.TRASH_EnumItems tr).1 (env.TRASH_EnumItems tr).2])
          = (S_OK, tr ++ [Event.TRASH_EnumItems (env.TRASH_EnumItems tr).1
              (env.TRASH_EnumItems tr).2] ++ new) := by
        simpa [erase_items] using h1
      simp only [Bool.not_true, he, List.append_assoc, List.drop_left, answers_append, h4,
        answers_map_ILFree]
      simp [answers, Event.answer]
  · intro otherPath otherFlags hb
    rw [heq, heq, hb]

/-- C7 for the sample trash: with SHERB_NOCONFIRMATION set both items reach TRASH_EraseItem
without a message box, and the other flag bits and the root path change nothing. -/
theorem SHEmptyRecycleBinW_spec_witness :
    SHEmptyRecycleBinW sampleEnv 0 (some [67, 58, 92]) 7 []
      = SHEmptyRecycleBinW sampleEnv 0 none 1 [] ∧
    (answers ((SHEmptyRecycleBinW sampleEnv 0 none 0 []).2.drop 0) ≠ [] ↔
      Nat.testBit 0 0 = false) ∧
    SHEmptyRecycleBinW sampleEnv 0 none 1 []
      = (S_OK, [Event.TRASH_EnumItems S_OK [sampleItem 1, sampleItem 2],
          Event.SHGetFolderLocation 0 (some []),
          Event.TRASH_EraseItem (sampleItem 1) E_FAIL,
          Event.TRASH_EraseItem (sampleItem 2) S_OK,
          Event.SHChangeNotify SHCNE_DELETE SHCNF_IDLIST (some []) (sampleItem 2),
          Event.ILFree (some []),
          Event.ILFree (some (sampleItem 1)),
          Event.ILFree (some (sampleItem 2)),
          Event.SHFree_array [sampleItem 1, sampleItem 2]]) :=
  ⟨(SHEmptyRecycleBinW_spec sampleEnv 0 none 1 []).2.2 (some [67, 58, 92]) 7 (by decide),
   (SHEmptyRecycleBinW_spec sampleEnv 0 none 0 []).2.1 (by decide),
   by decide⟩

end Shell32

namespace Dpnet

open Shell32 (S_OK E_POINTER)

/-! ### EnumServiceProviders -/

/-- Every enumeration of the modelled peer requires a buffer of non-zero size. -/
theorem Peer.requiredSize_pos (peer : Peer) (e : Enumeration) : 0 < peer.requiredSize e := by
  cases e <;> simp [Peer.requiredSize, Peer.items, Peer.itemBytes]

/-- C10: for an initialized peer and for either enumeration (service providers, adapters of
CLSID_DP8SP_TCPIP), EnumServiceProviders returns E_POINTER when the size pointer or the
item-count pointer is NULL; with both non-NULL, a NULL buffer and a size of 0 it returns
DPNERR_BUFFERTOOSMALL and stores a non-zero required size; a following call with a buffer of
that size returns S_OK and reports a non-zero number of items. -/
theorem EnumServiceProviders_two_call (peer : Peer) (e : Enumeration) :
    (∀ (buffer : Option Nat) (items : Option Nat),
      (EnumServiceProviders peer e buffer none items).hr = E_POINTER) ∧
    (∀ (buffer : Option Nat) (size : Option Nat),
      (EnumServiceProviders peer e buffer size none).hr = E_POINTER) ∧
    (∀ items : Nat,
      (EnumServiceProviders peer e none (some 0) (some items)).hr = DPNERR_BUFFERTOOSMALL ∧
      ∃ required : Nat, required ≠ 0 ∧
        (EnumServiceProviders peer e none (some 0) (some items)).pcbEnumData = some required ∧
        ∀ address : Nat,
          (EnumServiceProviders peer e (some address) (some required)
            (EnumServiceProviders peer e none (some 0) (some items)).pcReturned).hr = S_OK ∧
          ∃ n : Nat, n ≠ 0 ∧
            (EnumServiceProviders peer e (some address) (some required)
              (EnumServiceProviders peer e none (some 0) (some items)).pcReturned).pcReturned
              = some n) := by
  have hpos := peer.requiredSize_pos e
  refine ⟨?_, ?_, ?_⟩
  · intro buffer items
    simp [EnumServiceProviders]
  · intro buffer size
    cases size <;> simp [EnumServiceProviders]
  · intro items
    have h1 : EnumServiceProviders peer e none (some 0) (some items)
        = ⟨DPNERR_BUFFERTOOSMALL, some (peer.requiredSize e), some items, []⟩ := by
      simp [EnumServiceProviders]
    rw [h1]
    refine ⟨rfl, peer.requiredSize e, Nat.pos_iff_ne_zero.mp hpos, rfl, ?_⟩
    intro address
    have h2 : EnumServiceProviders peer e (some address) (some (peer.requiredSize e)) (some items)
        = ⟨S_OK, some (peer.requiredSize e), some (peer.items e).length, peer.items e⟩ := by
      simp [EnumServiceProviders]
    rw [h2]
    refine ⟨rfl, (peer.items e).length, ?_, rfl⟩
    cases e <;> simp [Peer.items]

/-- C10 for a peer with one service provider: the required size is 40 bytes and the second
call reports one item. -/
theorem EnumServiceProviders_two_call_witness :
    (EnumServiceProviders samplePeer Enumeration.serviceProviders none none (some 0)).hr
      = E_POINTER ∧
    EnumServiceProviders samplePeer Enumeration.serviceProviders none (some 0) (some 0)
      = ⟨DPNERR_BUFFERTOOSMALL, some 40, some 0, []⟩ ∧
    (EnumServiceProviders samplePeer Enumeration.serviceProviders (some 4096) (some 40)
      (some 0)).hr = S_OK ∧
    (EnumServiceProviders samplePeer Enumeration.serviceProviders (some 4096) (some 40)
      (some 0)).pcReturned = some 1 :=
  ⟨(EnumServiceProviders_two_call samplePeer Enumeration.serviceProviders).1 none (some 0),
   by decide, by decide, by decide⟩

end Dpnet

namespace Shell32

/-! ### The column table -/

/-- C12: the column table has exactly COLUMNS_COUNT = 6 entries, and both functions read it
inside its bounds for every column number. For `iColumn < 6` RecycleBin_GetDefaultColumnState
returns S_OK and stores the `pcsFlags` of the table entry, which includes
SHCOLSTATE_ONBYDEFAULT, and RecycleBin_MapColumnToSCID returns S_OK and stores the `fmtId` and
`pid` of the entry. For `iColumn >= 6` both return E_INVALIDARG and leave their output as it
was. -/
theorem RecycleBin_columns_in_bounds (iColumn : Nat) (pcsFlags : Nat) (pscid : SHCOLUMNID) :
    RecycleBinColumns.length = COLUMNS_COUNT ∧ COLUMNS_COUNT = 6 ∧
    (iColumn < 6 →
      ∃ column, RecycleBinColumns[iColumn]? = some column ∧
        RecycleBin_GetDefaultColumnState iColumn pcsFlags = some (S_OK, column.pcsFlags) ∧
        column.pcsFlags &&& SHCOLSTATE_ONBYDEFAULT = SHCOLSTATE_ONBYDEFAULT ∧
        RecycleBin_MapColumnToSCID iColumn pscid = some (S_OK, ⟨column.fmtId, column.pid⟩)) ∧
    (6 ≤ iColumn →
      RecycleBin_GetDefaultColumnState iColumn pcsFlags = some (E_INVALIDARG, pcsFlags) ∧
      RecycleBin_MapColumnToSCID iColumn pscid = some (E_INVALIDARG, pscid)) := by
  refine ⟨rfl, rfl, ?_, ?_⟩
  · intro h
    interval_cases iColumn <;> exact ⟨_, rfl, rfl, by decide, rfl⟩
  · intro h
    have h6 : iColumn ≥ COLUMNS_COUNT := h
    simp [RecycleBin_GetDefaultColumnState, RecycleBin_MapColumnToSCID, h6]

/-- C12 at column 3 (the size column) and at column 6 (the first one outside the table). -/
theorem RecycleBin_columns_in_bounds_witness :
    (∃ column, RecycleBinColumns[3]? = some column ∧
      RecycleBin_GetDefaultColumnState 3 0 = some (S_OK, column.pcsFlags) ∧
      column.pcsFlags &&& SHCOLSTATE_ONBYDEFAULT = SHCOLSTATE_ONBYDEFAULT ∧
      RecycleBin_MapColumnToSCID 3 ⟨IID_IUnknown, 0⟩
        = some (S_OK, ⟨column.fmtId, column.pid⟩)) ∧
    RecycleBin_GetDefaultColumnState 3 0 = some (S_OK, 0x12) ∧
    RecycleBin_MapColumnToSCID 3 ⟨IID_IUnknown, 0⟩ = some (S_OK, ⟨FMTID_Storage, PID_STG_SIZE⟩) ∧
    RecycleBin_GetDefaultColumnState 6 77 = some (E_INVALIDARG, 77) ∧
    RecycleBin_MapColumnToSCID 6 ⟨IID_IUnknown, 0⟩ = some (E_INVALIDARG, ⟨IID_IUnknown, 0⟩) :=
  ⟨(RecycleBin_columns_in_bounds 3 0 ⟨IID_IUnknown, 0⟩).2.2.1 (by decide),
   by decide, by decide,
   ((RecycleBin_columns_in_bounds 6 77 ⟨IID_IUnknown, 0⟩).2.2.2 (by decide)).1,
   ((RecycleBin_columns_in_bounds 6 77 ⟨IID_IUnknown, 0⟩).2.2.2 (by decide)).2⟩

/-! ### RecycleBin_GetAttributesOf -/

/-- C18: RecycleBin_GetAttributesOf returns S_OK and stores the requested mask ANDed with
SFGAO_CANMOVE | SFGAO_CANDELETE | SFGAO_HASPROPSHEET | SFGAO_FILESYSTEM. Hence every bit of the
answer was requested, the answer has no bit outside those four (SFGAO_FOLDER in particular is
never reported), the answer is the same for every item array, and asking again with the answer
gives the answer. -/
theorem RecycleBin_GetAttributesOf_narrows (apidl : List ITEMIDLIST) (m : Nat) :
    RecycleBin_GetAttributesOf apidl m
      = (S_OK, m &&&
          (SFGAO_CANMOVE ||| SFGAO_CANDELETE ||| SFGAO_HASPROPSHEET ||| SFGAO_FILESYSTEM)) ∧
    (RecycleBin_GetAttributesOf apidl m).2 &&& m = (RecycleBin_GetAttributesOf apidl m).2 ∧
    (∀ i, (RecycleBin_GetAttributesOf apidl m).2.testBit i = true → m.testBit i = true) ∧
    (RecycleBin_GetAttributesOf apidl m).2 &&& SFGAO_FOLDER = 0 ∧
    (RecycleBin_GetAttributesOf apidl m).2 &&&
        (SFGAO_CANMOVE ||| SFGAO_CANDELETE ||| SFGAO_HASPROPSHEET ||| SFGAO_FILESYSTEM)
      = (RecycleBin_GetAttributesOf apidl m).2 ∧
    (∀ other : List ITEMIDLIST,
      RecycleBin_GetAttributesOf other m = RecycleBin_GetAttributesOf apidl m) ∧
    RecycleBin_GetAttributesOf apidl (RecycleBin_GetAttributesOf apidl m).2
      = RecycleBin_GetAttributesOf apidl m := by
  refine ⟨rfl, ?_, ?_, ?_, ?_, fun _ => rfl, ?_⟩
  · simp only [RecycleBin_GetAttributesOf]
    rw [Nat.and_comm, ← Nat.and_assoc, Nat.and_self]
  · intro i h
    simp only [RecycleBin_GetAttributesOf, Nat.testBit_and, Bool.and_eq_true] at h
    exact h.1
  · simp only [RecycleBin_GetAttributesOf]
    rw [Nat.and_assoc]
    have h : (SFGAO_CANMOVE ||| SFGAO_CANDELETE ||| SFGAO_HASPROPSHEET ||| SFGAO_FILESYSTEM)
        &&& SFGAO_FOLDER = 0 := by decide
    rw [h, Nat.and_zero]
  · simp only [RecycleBin_GetAttributesOf]
    rw [Nat.and_assoc, Nat.and_self]
  · simp only [RecycleBin_GetAttributesOf]
    rw [Nat.and_assoc, Nat.and_self]

end Shell32

namespace Shell32

/-! ### RecycleBin_Initialize and RecycleBin_GetCurFolder -/

/-- RecycleBin_Initialize calls ILClone once, stores what ILClone returned and tests it: S_OK
with the copy stored, or E_OUTOFMEMORY with NULL stored; the count is kept. -/
theorem RecycleBin_Initialize_eq (env : Env) (This : RecycleBin) (pidl : ITEMIDLIST)
    (tr : Trace) :
    RecycleBin_Initialize env This (some pidl) tr
      = if env.ILClone tr pidl = true then
          (S_OK, ⟨This.refCount, some pidl⟩, tr ++ [Event.ILClone (some pidl) (some pidl)])
        else
          (E_OUTOFMEMORY, ⟨This.refCount, none⟩, tr ++ [Event.ILClone (some pidl) none]) := by
  cases hc : env.ILClone tr pidl <;> simp [RecycleBin_Initialize, ILClone, hc]

/-- RecycleBin_GetCurFolder calls ILClone once on the stored pidl, stores what ILClone returned
in `*ppidl` without testing it, returns S_OK and leaves the folder as it was. -/
theorem RecycleBin_GetCurFolder_eq (env : Env) (This : RecycleBin) (pidl : ITEMIDLIST)
    (tr : Trace) (h : This.pidl = some pidl) :
    RecycleBin_GetCurFolder env This tr
      = if env.ILClone tr pidl = true then
          (S_OK, some pidl, This, tr ++ [Event.ILClone (some pidl) (some pidl)])
        else
          (S_OK, none, This, tr ++ [Event.ILClone (some pidl) none]) := by
  cases hc : env.ILClone tr pidl <;> simp [RecycleBin_GetCurFolder, ILClone, h, hc]

/-- The round trip where the defect of RecycleBin_GetCurFolder does not show: when
RecycleBin_Initialize returned S_OK and the clone that RecycleBin_GetCurFolder asks for can be
allocated, RecycleBin_GetCurFolder makes one more ILClone call, returns S_OK with a copy equal
to the list in `*ppidl`, and leaves the stored pidl and the count unchanged. -/
theorem RecycleBin_Initialize_GetCurFolder_of_clone (env : Env) (This : RecycleBin)
    (pidl : ITEMIDLIST) (tr : Trace)
    (hinit : (RecycleBin_Initialize env This (some pidl) tr).1 = S_OK)
    (hclone : env.ILClone (RecycleBin_Initialize env This (some pidl) tr).2.2 pidl = true) :
    (RecycleBin_Initialize env This (some pidl) tr).2.1 = ⟨This.refCount, some pidl⟩ ∧
    (RecycleBin_Initialize env This (some pidl) tr).2.2
      = tr ++ [Event.ILClone (some pidl) (some pidl)] ∧
    RecycleBin_GetCurFolder env (RecycleBin_Initialize env This (some pidl) tr).2.1
        (RecycleBin_Initialize env This (some pidl) tr).2.2
      = (S_OK, some pidl, ⟨This.refCount, some pidl⟩,
          tr ++ [Event.ILClone (some pidl) (some pidl), Event.ILClone (some pidl) (some pidl)])
    := by
  rw [RecycleBin_Initialize_eq] at hinit hclone ⊢
  by_cases hc : env.ILClone tr pidl = true
  · rw [if_pos hc] at hinit hclone ⊢
    refine ⟨rfl, rfl, ?_⟩
    rw [RecycleBin_GetCurFolder_eq env _ pidl _ rfl, if_pos hclone]
    simp
  · rw [if_neg hc] at hinit
    exact absurd (show E_OUTOFMEMORY = S_OK from hinit) (by decide)

/-- The round trip for the sample collaborators, whose allocations all succeed. -/
theorem RecycleBin_Initialize_GetCurFolder_of_clone_witness :
    RecycleBin_GetCurFolder sampleEnv
        (RecycleBin_Initialize sampleEnv ⟨1, none⟩ (some (sampleItem 1)) []).2.1
        (RecycleBin_Initialize sampleEnv ⟨1, none⟩ (some (sampleItem 1)) []).2.2
      = (S_OK, some (sampleItem 1), ⟨1, some (sampleItem 1)⟩,
          [] ++ [Event.ILClone (some (sampleItem 1)) (some (sampleItem 1)),
            Event.ILClone (some (sampleItem 1)) (some (sampleItem 1))]) :=
  (RecycleBin_Initialize_GetCurFolder_of_clone sampleEnv ⟨1, none⟩ (sampleItem 1) []
    (by decide) (by decide)).2.2

/-- C11, on the code: with collaborators that can allocate one clone and no second one,
RecycleBin_Initialize calls ILClone, stores the copy and returns S_OK; RecycleBin_GetCurFolder
then calls ILClone again, gets NULL, and still returns S_OK with NULL in `*ppidl`, which is not
a copy of the item id list (the stored pidl and the count are unchanged). In the same state
RecycleBin_Initialize, which tests what ILClone returned, answers E_OUTOFMEMORY. -/
theorem RecycleBin_GetCurFolder_unchecked_clone :
    RecycleBin_Initialize sampleEnvOneClone ⟨1, none⟩ (some (sampleItem 1)) []
      = (S_OK, ⟨1, some (sampleItem 1)⟩,
          [Event.ILClone (some (sampleItem 1)) (some (sampleItem 1))]) ∧
    RecycleBin_GetCurFolder sampleEnvOneClone ⟨1, some (sampleItem 1)⟩
        [Event.ILClone (some (sampleItem 1)) (some (sampleItem 1))]
      = (S_OK, none, ⟨1, some (sampleItem 1)⟩,
          [Event.ILClone (some (sampleItem 1)) (some (sampleItem 1)),
            Event.ILClone (some (sampleItem 1)) none]) ∧
    (RecycleBin_GetCurFolder sampleEnvOneClone ⟨1, some (sampleItem 1)⟩
        [Event.ILClone (some (sampleItem 1)) (some (sampleItem 1))]).2.1
      ≠ some (sampleItem 1) ∧
    RecycleBin_Initialize sampleEnvOneClone ⟨1, some (sampleItem 1)⟩ (some (sampleItem 1))
        [Event.ILClone (some (sampleItem 1)) (some (sampleItem 1))]
      = (E_OUTOFMEMORY, ⟨1, none⟩,
          [Event.ILClone (some (sampleItem 1)) (some (sampleItem 1)),
            Event.ILClone (some (sampleItem 1)) none]) := by
  decide

end Shell32

namespace Shell32

/-! ### The HRESULT of FormatDateTime -/

/-- The HRESULT of FormatDateTime is E_FAIL exactly when the date formatter returned a
non-zero length, and S_OK exactly when it returned 0. -/
theorem FormatDateTime_hr (host : Host) (buffer : List Nat) (size : Int) (ft : FILETIME) :
    (FormatDateTime host buffer size ft).1
      = if (host.GetDateFormatW
            (host.FileTimeToSystemTime (host.FileTimeToLocalFileTime ft)) size).1 ≠ 0
        then E_FAIL else S_OK := by
  simp [FormatDateTime, GetDateFormatW]

/-- C15, on the code: the date formatter of the sample library succeeds on a buffer of 20 cells
(it returns the length 9) and the buffer receives date, space and time, yet FormatDateTime
returns E_FAIL; with a date formatter that fails (returns 0) it returns S_OK. -/
theorem FormatDateTime_result_inverted :
    (sampleHost.GetDateFormatW
      (sampleHost.FileTimeToSystemTime (sampleHost.FileTimeToLocalFileTime ⟨0, 0⟩)) 20).1 = 9 ∧
    FormatDateTime sampleHost (List.replicate 20 7) 20 ⟨0, 0⟩
      = (E_FAIL, [49, 47, 50, 47, 50, 48, 48, 51, 32, 52, 58, 48, 53, 0, 7, 7, 7, 7, 7, 7]) ∧
    (sampleHostNoDate.GetDateFormatW
      (sampleHostNoDate.FileTimeToSystemTime (sampleHostNoDate.FileTimeToLocalFileTime ⟨0, 0⟩))
      20).1 = 0 ∧
    (FormatDateTime sampleHostNoDate (List.replicate 20 7) 20 ⟨0, 0⟩).1 = S_OK := by
  decide

/-! ### RecycleBin_CompareIDs -/

/-- A LONG survives the conversion to ULONG and back. -/
theorem toLONG_toULONG (code : Int) (h0 : -2147483648 ≤ code) (h1 : code ≤ 2147483647) :
    toLONG ((toULONG code : Nat) : Int) = code := by
  have h2 : ((toULONG code : Nat) : Int) = code % 4294967296 :=
    Int.toNat_of_nonneg (Int.emod_nonneg _ (by decide))
  rw [h2]
  unfold toLONG
  omega

/-- With SEVERITY_SUCCESS and facility 0, MAKE_HRESULT returns a code of the LONG range as it
is: a negative code gives a negative HRESULT. -/
theorem MAKE_HRESULT_success_eq (code : Int) (h0 : -2147483648 ≤ code)
    (h1 : code ≤ 2147483647) : MAKE_HRESULT SEVERITY_SUCCESS 0 code = code := by
  have h : ((SEVERITY_SUCCESS <<< 31) % 4294967296 ||| (0 <<< 16) % 4294967296
      ||| toULONG code) = toULONG code := by
    simp [SEVERITY_SUCCESS]
  unfold MAKE_HRESULT
  rw [h]
  exact toLONG_toULONG code h0 h1

/-- The conversion to unsigned short gives the value modulo 65536. -/
theorem toUSHORT_cast (x : Int) : ((toUSHORT x : Nat) : Int) = x % 65536 :=
  Int.toNat_of_nonneg (Int.emod_nonneg _ (by decide))

/-- An unsigned short is below 65536. -/
theorem toUSHORT_lt (x : Int) : toUSHORT x < 65536 := by
  have h := toUSHORT_cast x
  omega

/-- The low 16 bits of a LONG are its value modulo 65536. -/
theorem HRESULT_CODE_eq (hr : Int) : HRESULT_CODE hr = toUSHORT hr := by
  have h := Nat.and_pow_two_sub_one_eq_mod (toULONG hr) 16
  have h16 : (2 : Nat) ^ 16 - 1 = 0xFFFF := by decide
  rw [h16] at h
  unfold HRESULT_CODE
  rw [h]
  have h2 : ((toULONG hr : Nat) : Int) = hr % 4294967296 :=
    Int.toNat_of_nonneg (Int.emod_nonneg _ (by decide))
  have h3 : ((toUSHORT hr : Nat) : Int) = hr % 65536 :=
    Int.toNat_of_nonneg (Int.emod_nonneg _ (by decide))
  have h4 : (((toULONG hr % 2 ^ 16 : Nat)) : Int) = (toUSHORT hr : Int) := by
    push_cast
    rw [h2, h3]
    omega
  exact_mod_cast h4

/-- When the first item is the smaller one, RecycleBin_CompareIDs returns the negative
difference of the sizes: a failure HRESULT. -/
theorem RecycleBin_CompareIDs_of_lt (host : Host) (lParam : Int) (pidl1 pidl2 : ITEMIDLIST)
    (h : pidl1.mkid.cb < pidl2.mkid.cb) (h2 : pidl2.mkid.cb < 65536) :
    RecycleBin_CompareIDs host lParam pidl1 pidl2
      = (pidl1.mkid.cb : Int) - (pidl2.mkid.cb : Int) ∧
    FAILED (RecycleBin_CompareIDs host lParam pidl1 pidl2) = true := by
  have hne : pidl1.mkid.cb ≠ pidl2.mkid.cb := Nat.ne_of_lt h
  have he : RecycleBin_CompareIDs host lParam pidl1 pidl2
      = (pidl1.mkid.cb : Int) - (pidl2.mkid.cb : Int) := by
    simp only [RecycleBin_CompareIDs, hne, ne_eq, not_false_eq_true, if_true]
    exact MAKE_HRESULT_success_eq _ (by omega) (by omega)
  refine ⟨he, ?_⟩
  rw [he]
  simp only [FAILED, decide_eq_true_eq]
  show (pidl1.mkid.cb : Int) - (pidl2.mkid.cb : Int) < 0
  omega

/-- When the first item is not the smaller one, RecycleBin_CompareIDs returns a success
HRESULT that is nothing but a 16-bit code. -/
theorem RecycleBin_CompareIDs_of_ge (host : Host) (lParam : Int) (pidl1 pidl2 : ITEMIDLIST)
    (h : pidl2.mkid.cb ≤ pidl1.mkid.cb) (h1 : pidl1.mkid.cb < 65536) :
    0 ≤ RecycleBin_CompareIDs host lParam pidl1 pidl2 ∧
    RecycleBin_CompareIDs host lParam pidl1 pidl2 < 65536 ∧
    SUCCEEDED (RecycleBin_CompareIDs host lParam pidl1 pidl2) = true := by
  have hrange : 0 ≤ RecycleBin_CompareIDs host lParam pidl1 pidl2 ∧
      RecycleBin_CompareIDs host lParam pidl1 pidl2 < 65536 := by
    by_cases hne : pidl1.mkid.cb = pidl2.mkid.cb
    · have hu := toUSHORT_lt (host.memcmp pidl1.abIDMemory pidl2.abIDMemory pidl1.mkid.cb)
      unfold RecycleBin_CompareIDs
      rw [if_neg (not_not.mpr hne), MAKE_HRESULT_success_eq _ (by omega) (by omega)]
      constructor
      · show (0 : Int) ≤ _
        omega
      · show (_ : Int) < 65536
        omega
    · unfold RecycleBin_CompareIDs
      rw [if_pos hne, MAKE_HRESULT_success_eq _ (by omega) (by omega)]
      constructor
      · show (0 : Int) ≤ (pidl1.mkid.cb : Int) - (pidl2.mkid.cb : Int)
        omega
      · show (pidl1.mkid.cb : Int) - (pidl2.mkid.cb : Int) < 65536
        omega
  refine ⟨hrange.1, hrange.2, ?_⟩
  simp only [SUCCEEDED, decide_eq_true_eq]
  exact hrange.1

/-- C16, on the code: for a first item of size 3 and a second item of size 5,
RecycleBin_CompareIDs returns -2 (0xFFFFFFFE): a failure HRESULT, with the severity bit set
and all facility bits set. -/
theorem RecycleBin_CompareIDs_smaller_first_fails :
    RecycleBin_CompareIDs sampleHost 0 [⟨3, [1]⟩] [⟨5, [1, 2, 3]⟩] = -2 ∧
    FAILED (RecycleBin_CompareIDs sampleHost 0 [⟨3, [1]⟩] [⟨5, [1, 2, 3]⟩]) = true ∧
    HRESULT_SEVERITY (RecycleBin_CompareIDs sampleHost 0 [⟨3, [1]⟩] [⟨5, [1, 2, 3]⟩]) = 1 ∧
    HRESULT_FACILITY (RecycleBin_CompareIDs sampleHost 0 [⟨3, [1]⟩] [⟨5, [1, 2, 3]⟩])
      = 0x1fff := by
  decide

end Shell32

namespace Shell32

/-- The memcmp that answers 0, 65536 or -65536 is zero exactly on equal blocks. -/
theorem memcmpWide_zero_iff : MemcmpZeroIffEqual memcmpWide := by
  intro a b n
  unfold memcmpWide
  split_ifs with h1 h2 <;> simp [h1]

/-- The memcmp that answers 0, 1 or -1 is zero exactly on equal blocks. -/
theorem memcmpSign_zero_iff : MemcmpZeroIffEqual memcmpSign := by
  intro a b n
  unfold memcmpSign
  split_ifs with h1 h2 <;> simp [h1]

/-- With a memcmp whose results stay inside 16 bits, the 16-bit code of
RecycleBin_CompareIDs is 0 exactly for two items of equal size whose compared bytes are equal,
whatever `lParam` is. -/
theorem RecycleBin_CompareIDs_code_zero_iff (host : Host) (lParam : Int)
    (pidl1 pidl2 : ITEMIDLIST) (hm : MemcmpZeroIffEqual host.memcmp)
    (hr : ∀ a b n, -65536 < host.memcmp a b n ∧ host.memcmp a b n < 65536)
    (h1 : pidl1.mkid.cb < 65536) (h2 : pidl2.mkid.cb < 65536) :
    (HRESULT_CODE (RecycleBin_CompareIDs host lParam pidl1 pidl2) = 0 ↔
      pidl1.mkid.cb = pidl2.mkid.cb ∧
      pidl1.abIDMemory.take pidl1.mkid.cb = pidl2.abIDMemory.take pidl1.mkid.cb) ∧
    (∀ other : Int,
      RecycleBin_CompareIDs host other pidl1 pidl2
        = RecycleBin_CompareIDs host lParam pidl1 pidl2) := by
  refine ⟨?_, fun _ => rfl⟩
  rw [HRESULT_CODE_eq]
  by_cases hne : pidl1.mkid.cb = pidl2.mkid.cb
  · have hu := toUSHORT_lt (host.memcmp pidl1.abIDMemory pidl2.abIDMemory pidl1.mkid.cb)
    have hc := toUSHORT_cast (host.memcmp pidl1.abIDMemory pidl2.abIDMemory pidl1.mkid.cb)
    have hb := hr pidl1.abIDMemory pidl2.abIDMemory pidl1.mkid.cb
    have hz := hm pidl1.abIDMemory pidl2.abIDMemory pidl1.mkid.cb
    unfold RecycleBin_CompareIDs
    rw [if_neg (not_not.mpr hne), MAKE_HRESULT_success_eq _ (by omega) (by omega)]
    have hc2 := toUSHORT_cast
      ((toUSHORT (host.memcmp pidl1.abIDMemory pidl2.abIDMemory pidl1.mkid.cb) : Nat) : Int)
    constructor
    · intro h0
      refine ⟨hne, hz.mp ?_⟩
      rw [h0] at hc2
      omega
    · intro h
      rw [hz.mpr h.2]
      rfl
  · have hc := toUSHORT_cast ((pidl1.mkid.cb : Int) - (pidl2.mkid.cb : Int))
    unfold RecycleBin_CompareIDs
    rw [if_pos hne, MAKE_HRESULT_success_eq _ (by omega) (by omega)]
    constructor
    · intro h0
      rw [h0] at hc
      omega
    · intro h
      exact absurd h.1 hne

/-- The rule above applies to the sample library with the memcmp that answers 0, 1 or -1. -/
theorem RecycleBin_CompareIDs_code_zero_iff_witness :
    HRESULT_CODE (RecycleBin_CompareIDs { sampleHost with memcmp := memcmpSign } 0
      [⟨3, [1]⟩] [⟨3, [2]⟩]) ≠ 0 :=
  fun h =>
    absurd ((RecycleBin_CompareIDs_code_zero_iff { sampleHost with memcmp := memcmpSign } 0
      [⟨3, [1]⟩] [⟨3, [2]⟩] memcmpSign_zero_iff
      (fun a b n => by
        show -65536 < memcmpSign a b n ∧ memcmpSign a b n < 65536
        unfold memcmpSign
        split_ifs <;> decide)
      (by decide) (by decide)).1.mp h).2 (by decide)

/-- C17, on the code: the memcmp that answers 0, 65536 or -65536 is zero exactly on equal
blocks, as ISO C requires; with it, two items of the same size 3 whose identifier bytes differ
(1 and 2) get the 16-bit code 0 from RecycleBin_CompareIDs, the code of equal items. -/
theorem RecycleBin_CompareIDs_truncation :
    MemcmpZeroIffEqual sampleHostWide.memcmp ∧
    sampleHostWide.memcmp (ITEMIDLIST.abIDMemory [⟨3, [1]⟩]) (ITEMIDLIST.abIDMemory [⟨3, [2]⟩]) 3
      = -65536 ∧
    (ITEMIDLIST.abIDMemory [⟨3, [1]⟩]).take 3 ≠ (ITEMIDLIST.abIDMemory [⟨3, [2]⟩]).take 3 ∧
    RecycleBin_CompareIDs sampleHostWide 0 [⟨3, [1]⟩] [⟨3, [2]⟩] = 0 ∧
    HRESULT_CODE (RecycleBin_CompareIDs sampleHostWide 0 [⟨3, [1]⟩] [⟨3, [2]⟩]) = 0 :=
  ⟨memcmpWide_zero_iff, by decide, by decide, by decide, by decide⟩

end Shell32

namespace Shell32

/-! ### The buffer of FormatDateTime -/

/-- A store that stays inside the buffer keeps the number of its cells. -/
theorem writeAt_length (buffer : List Nat) (offset : Nat) (chars : List Nat)
    (h : offset + chars.length ≤ buffer.length) :
    (writeAt buffer offset chars).length = buffer.length := by
  simp only [writeAt, List.length_append, List.length_take, List.length_drop]
  omega

/-- Storing one character at cell `k` and then a string from cell `k + 1` on. -/
theorem writeAt_writeAt_next (d : List Nat) (k : Nat) (c : Nat) (t : List Nat)
    (h : k + 1 ≤ d.length) :
    writeAt (writeAt d k [c]) (k + 1) t
      = d.take k ++ [c] ++ t ++ d.drop (k + 1 + t.length) := by
  have hk : (d.take k ++ [c]).length = k + 1 := by
    simp only [List.length_append, List.length_take, List.length_singleton]
    omega
  have e : writeAt d k [c] = (d.take k ++ [c]) ++ d.drop (k + 1) := by
    simp [writeAt]
  rw [e]
  unfold writeAt
  have h1 : ((d.take k ++ [c]) ++ d.drop (k + 1)).take (k + 1) = d.take k ++ [c] := by
    rw [← hk]; exact List.take_left' rfl
  have h2 : ((d.take k ++ [c]) ++ d.drop (k + 1)).drop (k + 1 + t.length)
      = d.drop (k + 1 + t.length) := by
    rw [← hk, List.drop_append, List.drop_drop, hk]
  rw [h1, h2]

/-- The cell that follows a prefix holds the character stored after it. -/
theorem getElem?_after_prefix (a rest : List Nat) (c : Nat) :
    (a ++ ([c] ++ rest))[a.length]? = some c := by
  rw [List.getElem?_append_right (le_refl _)]
  simp

/-- C14: on a buffer of `size` cells, with `ret` the length the date formatter returns and `d`
the buffer as the date formatter left it (still `size` cells). When `0 < ret < size` the buffer
after FormatDateTime holds the first `ret - 1` cells of `d` (the date characters), a space at
index `ret - 1`, then from index `ret` on the characters `t` that the time formatter stores
when called with the capacity `size - ret` (never more than `size - ret` of them), and the
cells of `d` after these; the buffer still has `size` cells, so nothing is stored past index
`size - 1`. When `ret <= 0` or `ret >= size` the buffer is `d`. -/
theorem FormatDateTime_layout (host : Host) (buffer : List Nat) (size : Int) (ft : FILETIME)
    (time : SYSTEMTIME) (ret : Int) (d t : List Nat)
    (hbuf : buffer.length = size.toNat)
    (htime : time = host.FileTimeToSystemTime (host.FileTimeToLocalFileTime ft))
    (hret : ret = (host.GetDateFormatW time size).1)
    (hd : d = (GetDateFormatW host time buffer size).2)
    (ht : t = (host.GetTimeFormatW time (size - ret)).2.take (size - ret).toNat) :
    d.length = size.toNat ∧
    (0 < ret ∧ ret < size →
      (FormatDateTime host buffer size ft).2
        = d.take (ret - 1).toNat ++ [32] ++ t ++ d.drop (ret.toNat + t.length) ∧
      ((FormatDateTime host buffer size ft).2.take (ret - 1).toNat = d.take (ret - 1).toNat) ∧
      (FormatDateTime host buffer size ft).2[(ret - 1).toNat]? = some 32 ∧
      ((FormatDateTime host buffer size ft).2.drop ret.toNat).take t.length = t ∧
      t.length ≤ (size - ret).toNat ∧
      (FormatDateTime host buffer size ft).2.length = size.toNat) ∧
    (ret ≤ 0 ∨ size ≤ ret → (FormatDateTime host buffer size ft).2 = d) := by
  have hdlen : d.length = size.toNat := by
    rw [hd]
    simp only [GetDateFormatW]
    rw [writeAt_length _ _ _ (by simp only [List.length_take]; omega), hbuf]
  have htlen : t.length ≤ (size - ret).toNat := by
    rw [ht]; simp only [List.length_take]; omega
  refine ⟨hdlen, ?_, ?_⟩
  · rintro ⟨h0, h1⟩
    have hk : (ret - 1).toNat + 1 = ret.toNat := by omega
    have hkd : (ret - 1).toNat + 1 ≤ d.length := by omega
    have hres : (FormatDateTime host buffer size ft).2
        = d.take (ret - 1).toNat ++ [32] ++ t ++ d.drop (ret.toNat + t.length) := by
      have hcond : (host.GetDateFormatW (host.FileTimeToSystemTime
          (host.FileTimeToLocalFileTime ft)) size).1 > 0 ∧
          (host.GetDateFormatW (host.FileTimeToSystemTime
            (host.FileTimeToLocalFileTime ft)) size).1 < size := by
        rw [← htime, ← hret]; exact ⟨h0, h1⟩
      simp only [FormatDateTime, GetDateFormatW, GetTimeFormatW, hcond, and_self, if_true]
      rw [← htime, ← hret, ← ht]
      have hd2 : d = writeAt buffer 0 ((host.GetDateFormatW time size).2.take size.toNat) := by
        rw [hd]; rfl
      rw [← hd2, ← hk]
      exact writeAt_writeAt_next d (ret - 1).toNat 32 t hkd
    have hlen : (d.take (ret - 1).toNat).length = (ret - 1).toNat := by
      simp only [List.length_take]; omega
    refine ⟨hres, ?_, ?_, ?_, htlen, ?_⟩
    · rw [hres, List.append_assoc, List.append_assoc]
      exact List.take_left' hlen
    · have hget := getElem?_after_prefix (d.take (ret - 1).toNat)
        (t ++ d.drop (ret.toNat + t.length)) 32
      rw [hres, List.append_assoc, List.append_assoc]
      rw [hlen] at hget
      exact hget
    · have hl2 : (d.take (ret - 1).toNat ++ [32]).length = ret.toNat := by
        simp only [List.length_append, List.length_singleton, hlen]; omega
      rw [hres, List.append_assoc (d.take (ret - 1).toNat ++ [32])]
      rw [List.drop_left' hl2]
      exact List.take_left' rfl
    · rw [hres]
      simp only [List.length_append, List.length_take, List.length_drop, List.length_singleton]
      omega
  · intro h
    have hcond : ¬ ((host.GetDateFormatW (host.FileTimeToSystemTime
        (host.FileTimeToLocalFileTime ft)) size).1 > 0 ∧
        (host.GetDateFormatW (host.FileTimeToSystemTime
          (host.FileTimeToLocalFileTime ft)) size).1 < size) := by
      rw [← htime, ← hret]; omega
    simp only [FormatDateTime, GetDateFormatW, hcond, if_false]
    rw [hd, htime]
    rfl

/-- C14 for the sample library on a buffer of 20 cells: the date `1/2/2003` (length 9 with its
terminator), a space at index 8, the time `4:05` from index 9 on. -/
theorem FormatDateTime_layout_witness :
    (FormatDateTime sampleHost (List.replicate 20 7) 20 ⟨0, 0⟩).2
      = [49, 47, 50, 47, 50, 48, 48, 51] ++ [32] ++ [52, 58, 48, 53, 0]
          ++ [7, 7, 7, 7, 7, 7] ∧
    (FormatDateTime sampleHost (List.replicate 20 7) 20 ⟨0, 0⟩).2.length = 20 :=
  have h := (FormatDateTime_layout sampleHost (List.replicate 20 7) 20 ⟨0, 0⟩
    ⟨2003, 1, 4, 2, 4, 5, 6, 0⟩ 9
    ([49, 47, 50, 47, 50, 48, 48, 51, 0] ++ List.replicate 11 7) [52, 58, 48, 53, 0]
    (by decide) (by decide) (by decide) (by decide) (by decide)).2.1 (by decide)
  ⟨h.1.trans (by decide), h.2.2.2.2.2.trans (by decide)⟩

end Shell32

namespace Shell32

/-! ### RecycleBin_GetDetailsOf -/

/-- S_OK is not E_FAIL. -/
theorem S_OK_ne_E_FAIL : S_OK ≠ E_FAIL := by decide

/-- E_OUTOFMEMORY is not E_FAIL. -/
theorem E_OUTOFMEMORY_ne_E_FAIL : E_OUTOFMEMORY ≠ E_FAIL := by decide

/-- SHStrDupW returns S_OK with a copy of the text, or E_OUTOFMEMORY with NULL. -/
theorem SHStrDupW_cases (env : Env) (text : List Nat) (tr : Trace) :
    (env.SHStrDupW tr text = true ∧
      SHStrDupW env text tr = (S_OK, some text, tr ++ [Event.SHStrDupW text true])) ∨
    (env.SHStrDupW tr text = false ∧
      SHStrDupW env text tr = (E_OUTOFMEMORY, none, tr ++ [Event.SHStrDupW text false])) := by
  cases h : env.SHStrDupW tr text <;> simp [SHStrDupW, h]

/-- SHStrDupW never returns E_FAIL. -/
theorem SHStrDupW_ne_E_FAIL (env : Env) (text : List Nat) (tr : Trace) :
    (SHStrDupW env text tr).1 ≠ E_FAIL := by
  rcases SHStrDupW_cases env text tr with ⟨_, h⟩ | ⟨_, h⟩
  · rw [h]; exact S_OK_ne_E_FAIL
  · rw [h]; exact E_OUTOFMEMORY_ne_E_FAIL

/-- RecycleBin_GetDisplayNameOf never returns E_FAIL. -/
theorem RecycleBin_GetDisplayNameOf_ne_E_FAIL (env : Env) (host : Host) (pidl : ITEMIDLIST)
    (uFlags : Nat) (pName : STRRET) (tr : Trace) :
    (RecycleBin_GetDisplayNameOf env host pidl uFlags pName tr).1 ≠ E_FAIL := by
  cases h : env.StrDupW tr (host.PathFindFileNameW (env.TRASH_UnpackItemID pidl.mkid).cFileName)
  · simp only [RecycleBin_GetDisplayNameOf, StrDupW, h]
    exact E_OUTOFMEMORY_ne_E_FAIL
  · simp only [RecycleBin_GetDisplayNameOf, StrDupW, h]
    exact S_OK_ne_E_FAIL

/-- When the copy can be allocated, the details hold a STRRET_WSTR copy of the text. -/
theorem detailsOfText_ok (env : Env) (column : columninfo) (text : List Nat) (tr : Trace)
    (h : env.SHStrDupW tr text = true) :
    detailsOfText env column text tr
      = some (S_OK, ⟨column.fmt, column.cxChars, ⟨STRRET_WSTR, some text⟩⟩,
          tr ++ [Event.SHStrDupW text true]) := by
  simp [detailsOfText, SHStrDupW, h]

end Shell32

namespace Shell32

/-- For a column of the table RecycleBin_GetDetailsOf never returns E_FAIL, and it stores the
format and the width of the column. -/
theorem RecycleBin_GetDetailsOf_in_table (env : Env) (host : Host) (buffer : List Nat)
    (pidl : Option ITEMIDLIST) (iColumn : Nat) (pDetails : SHELLDETAILS) (tr : Trace)
    (h : iColumn < 6) :
    ∃ column hr details tr1,
      RecycleBinColumns[iColumn]? = some column ∧
      RecycleBin_GetDetailsOf env host buffer pidl iColumn pDetails tr
        = some (hr, details, tr1) ∧
      hr ≠ E_FAIL ∧ details.fmt = column.fmt ∧ details.cxChar = column.cxChars := by
  cases pidl with
  | none =>
    interval_cases iColumn <;>
      exact ⟨_, _, _, _, rfl, rfl, SHStrDupW_ne_E_FAIL _ _ _, rfl, rfl⟩
  | some p =>
    interval_cases iColumn
    · exact ⟨_, _, _, _, rfl, rfl,
        RecycleBin_GetDisplayNameOf_ne_E_FAIL env host p SHGDN_NORMAL pDetails.str tr, rfl, rfl⟩
    all_goals exact ⟨_, _, _, _, rfl, rfl, SHStrDupW_ne_E_FAIL _ _ _, rfl, rfl⟩

end Shell32

namespace Shell32

/-- The type column holds the empty string, whatever the local buffer held before. -/
theorem wstr_writeAt_zero (buffer : List Nat) : wstr (writeAt buffer 0 [0]) = [] := by
  simp [wstr, writeAt]

/-- What RecycleBin_GetDetailsOf does column by column. It returns E_FAIL exactly when
`iColumn >= 6`, and then leaves `*pDetails` as it was. For `iColumn < 6` it reads the table
inside its bounds and stores the format and the width of the column. For a non-NULL pidl the
`default` case of the switch is never taken: column 0 gives the HRESULT and the string of
RecycleBin_GetDisplayNameOf; the other columns give what SHStrDupW returns for the text of the
column, which is, for column 1, the unpacked original path with its file name removed, for
column 3 the size `(nFileSizeHigh << 32) | nFileSizeLow` formatted by StrFormatKBSizeW, for
column 4 the empty string, and for columns 2 and 5 the string the local buffer holds after
FormatDateTime was called on it with `ftLastAccessTime` or `ftLastWriteTime` (what that string
is, is the subject of the theorems on the date columns below). -/
theorem RecycleBin_GetDetailsOf_columns (env : Env) (host : Host) (buffer : List Nat)
    (pidl : Option ITEMIDLIST) (iColumn : Nat) (pDetails : SHELLDETAILS) (tr : Trace) :
    ((∃ details tr1, RecycleBin_GetDetailsOf env host buffer pidl iColumn pDetails tr
        = some (E_FAIL, details, tr1)) ↔ 6 ≤ iColumn) ∧
    (6 ≤ iColumn →
      RecycleBin_GetDetailsOf env host buffer pidl iColumn pDetails tr
        = some (E_FAIL, pDetails, tr)) ∧
    (iColumn < 6 →
      ∃ column hr details tr1,
        RecycleBinColumns[iColumn]? = some column ∧
        RecycleBin_GetDetailsOf env host buffer pidl iColumn pDetails tr
          = some (hr, details, tr1) ∧
        details.fmt = column.fmt ∧ details.cxChar = column.cxChars) ∧
    (∀ p column, pidl = some p → RecycleBinColumns[iColumn]? = some column →
      (iColumn = COLUMN_NAME →
        RecycleBin_GetDetailsOf env host buffer pidl iColumn pDetails tr
          = some ((RecycleBin_GetDisplayNameOf env host p SHGDN_NORMAL pDetails.str tr).1,
              ⟨column.fmt, column.cxChars,
                (RecycleBin_GetDisplayNameOf env host p SHGDN_NORMAL pDetails.str tr).2.1⟩,
              (RecycleBin_GetDisplayNameOf env host p SHGDN_NORMAL pDetails.str tr).2.2)) ∧
      (iColumn = COLUMN_DELFROM →
        RecycleBin_GetDetailsOf env host buffer pidl iColumn pDetails tr
          = detailsOfText env column
              (host.PathRemoveFileSpecW (env.TRASH_UnpackItemID p.mkid).cFileName) tr) ∧
      (iColumn = COLUMN_DATEDEL →
        RecycleBin_GetDetailsOf env host buffer pidl iColumn pDetails tr
          = detailsOfText env column
              (wstr (FormatDateTime host buffer MAX_PATH
                (env.TRASH_UnpackItemID p.mkid).ftLastAccessTime).2) tr) ∧
      (iColumn = COLUMN_SIZE →
        RecycleBin_GetDetailsOf env host buffer pidl iColumn pDetails tr
          = detailsOfText env column
              (host.StrFormatKBSizeW
                (toLONGLONG (((env.TRASH_UnpackItemID p.mkid).nFileSizeHigh.val <<< 32)
                  ||| (env.TRASH_UnpackItemID p.mkid).nFileSizeLow.val)) MAX_PATH) tr) ∧
      (iColumn = COLUMN_TYPE →
        RecycleBin_GetDetailsOf env host buffer pidl iColumn pDetails tr
          = detailsOfText env column [] tr) ∧
      (iColumn = COLUMN_MTIME →
        RecycleBin_GetDetailsOf env host buffer pidl iColumn pDetails tr
          = detailsOfText env column
              (wstr (FormatDateTime host buffer MAX_PATH
                (env.TRASH_UnpackItemID p.mkid).ftLastWriteTime).2) tr)) := by
  have hout : 6 ≤ iColumn →
      RecycleBin_GetDetailsOf env host buffer pidl iColumn pDetails tr
        = some (E_FAIL, pDetails, tr) := by
    intro h
    have h6 : iColumn ≥ COLUMNS_COUNT := h
    simp [RecycleBin_GetDetailsOf, h6]
  refine ⟨⟨?_, fun h => ⟨_, _, hout h⟩⟩, hout, ?_, ?_⟩
  · rintro ⟨details, tr1, he⟩
    by_contra hlt
    obtain ⟨_, hr, d, t, _, h2, h3, _⟩ := RecycleBin_GetDetailsOf_in_table env host buffer pidl
      iColumn pDetails tr (by omega)
    rw [h2] at he
    exact h3 (congrArg (fun r => r.1) (Option.some.inj he))
  · intro h
    obtain ⟨c, hr, d, t, h1, h2, _, h4, h5⟩ := RecycleBin_GetDetailsOf_in_table env host buffer
      pidl iColumn pDetails tr h
    exact ⟨c, hr, d, t, h1, h2, h4, h5⟩
  · intro p column hp hc
    subst hp
    refine ⟨?_, ?_, ?_, ?_, ?_, ?_⟩ <;> intro hi <;> subst hi <;>
      simp only [RecycleBinColumns, COLUMN_NAME, COLUMN_DELFROM, COLUMN_DATEDEL, COLUMN_SIZE,
        COLUMN_TYPE, COLUMN_MTIME, List.getElem?_cons_zero, List.getElem?_cons_succ,
        Option.some.injEq] at hc <;> subst hc
    · rfl
    · rfl
    · rfl
    · rfl
    · show detailsOfText env _ (wstr (writeAt buffer 0 [0])) tr = _
      rw [wstr_writeAt_zero]
      rfl
    · rfl

end Shell32

namespace Shell32

/-- The columns for the sample collaborators: column 6 gives E_FAIL and leaves the details
alone; for an item, column 3 gives the size in kilobytes right-aligned, column 4 the empty
string and column 0 the file name. -/
theorem RecycleBin_GetDetailsOf_columns_witness :
    RecycleBin_GetDetailsOf sampleEnv sampleHost (List.replicate 260 7) (some (sampleItem 1)) 6
      ⟨0, 0, ⟨5, none⟩⟩ [] = some (E_FAIL, ⟨0, 0, ⟨5, none⟩⟩, []) ∧
    RecycleBin_GetDetailsOf sampleEnv sampleHost (List.replicate 260 7) (some (sampleItem 1)) 3
      ⟨0, 0, ⟨5, none⟩⟩ []
      = some (S_OK, ⟨LVCFMT_RIGHT, 20, ⟨STRRET_WSTR, some [52, 49, 57, 52, 51, 48, 52]⟩⟩,
          [Event.SHStrDupW [52, 49, 57, 52, 51, 48, 52] true]) ∧
    RecycleBin_GetDetailsOf sampleEnv sampleHost (List.replicate 260 7) (some (sampleItem 1)) 4
      ⟨0, 0, ⟨5, none⟩⟩ []
      = some (S_OK, ⟨LVCFMT_LEFT, 20, ⟨STRRET_WSTR, some []⟩⟩, [Event.SHStrDupW [] true]) ∧
    RecycleBin_GetDetailsOf sampleEnv sampleHost (List.replicate 260 7) (some (sampleItem 1)) 0
      ⟨0, 0, ⟨5, none⟩⟩ []
      = some (S_OK, ⟨LVCFMT_LEFT, 30, ⟨STRRET_WSTR, some [102]⟩⟩,
          [Event.StrDupW [102] true]) :=
  ⟨(RecycleBin_GetDetailsOf_columns sampleEnv sampleHost (List.replicate 260 7)
      (some (sampleItem 1)) 6 ⟨0, 0, ⟨5, none⟩⟩ []).2.1 (by decide),
   ((RecycleBin_GetDetailsOf_columns sampleEnv sampleHost (List.replicate 260 7)
      (some (sampleItem 1)) 3 ⟨0, 0, ⟨5, none⟩⟩ []).2.2.2 (sampleItem 1)
      ⟨ColumnNameId.IDS_SHV_COLUMN2, FMTID_Storage, PID_STG_SIZE,
        SHCOLSTATE_TYPE_INT ||| SHCOLSTATE_ONBYDEFAULT, LVCFMT_RIGHT, 20⟩ rfl rfl).2.2.2.1
      rfl |>.trans (by decide),
   ((RecycleBin_GetDetailsOf_columns sampleEnv sampleHost (List.replicate 260 7)
      (some (sampleItem 1)) 4 ⟨0, 0, ⟨5, none⟩⟩ []).2.2.2 (sampleItem 1)
      ⟨ColumnNameId.IDS_SHV_COLUMN3, FMTID_Storage, PID_STG_STORAGETYPE,
        SHCOLSTATE_TYPE_INT ||| SHCOLSTATE_ONBYDEFAULT, LVCFMT_LEFT, 20⟩ rfl rfl).2.2.2.2.1
      rfl |>.trans (by decide),
   ((RecycleBin_GetDetailsOf_columns sampleEnv sampleHost (List.replicate 260 7)
      (some (sampleItem 1)) 0 ⟨0, 0, ⟨5, none⟩⟩ []).2.2.2 (sampleItem 1)
      ⟨ColumnNameId.IDS_SHV_COLUMN1, FMTID_Storage, PID_STG_NAME,
        SHCOLSTATE_TYPE_STR ||| SHCOLSTATE_ONBYDEFAULT, LVCFMT_LEFT, 30⟩ rfl rfl).1
      rfl |>.trans (by decide)⟩

end Shell32

namespace Shell32

/-! ### The date columns of RecycleBin_GetDetailsOf -/

/-- The string held by a buffer that starts with characters other than the terminator,
followed by a terminator. -/
theorem wstr_append_zero (s rest : List Nat) (h : ∀ c ∈ s, c ≠ 0) :
    wstr (s ++ 0 :: rest) = s := by
  unfold wstr
  rw [List.takeWhile_append_of_pos (fun c hc => by simpa using h c hc)]
  simp

/-- The string FormatDateTime leaves in the buffer when both formatters succeed: the date
formatter stores the date `date` and its terminator (and returns their number, which is below
`size`), the time formatter stores the time `tm` and its terminator within the capacity it is
given. The string is the date, a space and the time, whatever the buffer held before. -/
theorem FormatDateTime_wstr (host : Host) (buffer : List Nat) (size : Int) (ft : FILETIME)
    (date tm : List Nat)
    (hdate : host.GetDateFormatW (host.FileTimeToSystemTime (host.FileTimeToLocalFileTime ft))
      size = ((date.length : Int) + 1, date ++ [0]))
    (hfit : (date.length : Int) + 1 < size)
    (htime : (host.GetTimeFormatW (host.FileTimeToSystemTime (host.FileTimeToLocalFileTime ft))
      (size - ((date.length : Int) + 1))).2 = tm ++ [0])
    (htfit : (tm.length : Int) + 1 ≤ size - ((date.length : Int) + 1))
    (hd0 : ∀ c ∈ date, c ≠ 0) (ht0 : ∀ c ∈ tm, c ≠ 0) :
    wstr (FormatDateTime host buffer size ft).2 = date ++ [32] ++ tm := by
  have hcond : (date.length : Int) + 1 > 0 ∧ (date.length : Int) + 1 < size :=
    ⟨by omega, hfit⟩
  have hk : ((date.length : Int) + 1 - 1).toNat = date.length := by omega
  have hk1 : ((date.length : Int) + 1).toNat = date.length + 1 := by omega
  have htake : (date ++ [0]).take size.toNat = date ++ [0] := by
    apply List.take_of_length_le
    simp only [List.length_append, List.length_singleton]
    omega
  have httake : (tm ++ [0]).take (size - ((date.length : Int) + 1)).toNat = tm ++ [0] := by
    apply List.take_of_length_le
    simp only [List.length_append, List.length_singleton]
    omega
  have hd : writeAt buffer 0 (date ++ [0]) = (date ++ [0]) ++ buffer.drop (date.length + 1) := by
    simp [writeAt]
  have hres : (FormatDateTime host buffer size ft).2
      = date ++ [32] ++ (tm ++ [0])
          ++ (writeAt buffer 0 (date ++ [0])).drop (date.length + 1 + (tm ++ [0]).length) := by
    simp only [FormatDateTime, GetDateFormatW, GetTimeFormatW, hdate, hcond, and_self, if_true,
      htime, htake, httake, hk, hk1]
    rw [writeAt_writeAt_next _ _ _ _ (by rw [hd]; simp)]
    congr 3
    rw [hd, List.append_assoc]
    exact List.take_left' rfl
  rw [hres]
  have e : date ++ [32] ++ (tm ++ [0])
        ++ (writeAt buffer 0 (date ++ [0])).drop (date.length + 1 + (tm ++ [0]).length)
      = (date ++ [32] ++ tm)
        ++ 0 :: (writeAt buffer 0 (date ++ [0])).drop (date.length + 1 + (tm ++ [0]).length) := by
    simp
  rw [e]
  apply wstr_append_zero
  intro c hc
  simp only [List.mem_append, List.mem_singleton] at hc
  rcases hc with (hc | hc) | hc
  · exact hd0 c hc
  · rw [hc]; decide
  · exact ht0 c hc

/-- The buffer FormatDateTime leaves when the date formatter fails (returns 0) and stores
nothing: the buffer as it was before the call. -/
theorem FormatDateTime_date_failed (host : Host) (buffer : List Nat) (size : Int)
    (ft : FILETIME)
    (hdate : host.GetDateFormatW (host.FileTimeToSystemTime (host.FileTimeToLocalFileTime ft))
      size = (0, [])) :
    (FormatDateTime host buffer size ft).2 = buffer := by
  simp [FormatDateTime, GetDateFormatW, hdate, writeAt]

end Shell32

namespace Shell32

/-- The date columns of RecycleBin_GetDetailsOf when both formatters succeed. For column 2
(`ft` the deletion time `ftLastAccessTime` of the unpacked item) and column 5 (`ft` its
`ftLastWriteTime`): when the date formatter stores the date `date` of `ft` with its terminator
within MAX_PATH cells and the time formatter stores the time `tm` of `ft` with its terminator
within the cells that are left, the text handed to SHStrDupW is the date, a space and the time,
whatever the local buffer held; the result is what SHStrDupW returns, and when the copy can be
allocated it is S_OK with a STRRET_WSTR copy of that text. -/
theorem RecycleBin_GetDetailsOf_date_columns (env : Env) (host : Host) (buffer : List Nat)
    (p : ITEMIDLIST) (iColumn : Nat) (pDetails : SHELLDETAILS) (tr : Trace) (ft : FILETIME)
    (date tm : List Nat)
    (hcol : (iColumn = COLUMN_DATEDEL ∧ ft = (env.TRASH_UnpackItemID p.mkid).ftLastAccessTime) ∨
      (iColumn = COLUMN_MTIME ∧ ft = (env.TRASH_UnpackItemID p.mkid).ftLastWriteTime))
    (hdate : host.GetDateFormatW (host.FileTimeToSystemTime (host.FileTimeToLocalFileTime ft))
      MAX_PATH = ((date.length : Int) + 1, date ++ [0]))
    (hfit : (date.length : Int) + 1 < MAX_PATH)
    (htime : (host.GetTimeFormatW (host.FileTimeToSystemTime (host.FileTimeToLocalFileTime ft))
      ((MAX_PATH : Int) - ((date.length : Int) + 1))).2 = tm ++ [0])
    (htfit : (tm.length : Int) + 1 ≤ (MAX_PATH : Int) - ((date.length : Int) + 1))
    (hd0 : ∀ c ∈ date, c ≠ 0) (ht0 : ∀ c ∈ tm, c ≠ 0) :
    RecycleBin_GetDetailsOf env host buffer (some p) iColumn pDetails tr
      = some ((SHStrDupW env (date ++ [32] ++ tm) tr).1,
          ⟨LVCFMT_LEFT, 20, ⟨STRRET_WSTR, (SHStrDupW env (date ++ [32] ++ tm) tr).2.1⟩⟩,
          (SHStrDupW env (date ++ [32] ++ tm) tr).2.2) ∧
    (env.SHStrDupW tr (date ++ [32] ++ tm) = true →
      RecycleBin_GetDetailsOf env host buffer (some p) iColumn pDetails tr
        = some (S_OK, ⟨LVCFMT_LEFT, 20, ⟨STRRET_WSTR, some (date ++ [32] ++ tm)⟩⟩,
            tr ++ [Event.SHStrDupW (date ++ [32] ++ tm) true])) := by
  have hw := FormatDateTime_wstr host buffer MAX_PATH ft date tm hdate hfit htime htfit hd0 ht0
  have hgen : RecycleBin_GetDetailsOf env host buffer (some p) iColumn pDetails tr
      = some ((SHStrDupW env (date ++ [32] ++ tm) tr).1,
          ⟨LVCFMT_LEFT, 20, ⟨STRRET_WSTR, (SHStrDupW env (date ++ [32] ++ tm) tr).2.1⟩⟩,
          (SHStrDupW env (date ++ [32] ++ tm) tr).2.2) := by
    rcases hcol with ⟨hi, hft⟩ | ⟨hi, hft⟩
    · subst hi
      rw [← hw, hft]
      rfl
    · subst hi
      rw [← hw, hft]
      rfl
  refine ⟨hgen, fun hok => ?_⟩
  rw [hgen]
  simp only [SHStrDupW, hok]
  rfl

/-- The date columns for the sample library and the sample item, on a local buffer that held
other characters: column 2 and column 5 give `1/2/2003 4:05`. -/
theorem RecycleBin_GetDetailsOf_date_columns_witness :
    RecycleBin_GetDetailsOf sampleEnv sampleHost (List.replicate 260 7) (some (sampleItem 1))
        COLUMN_DATEDEL ⟨0, 0, ⟨5, none⟩⟩ []
      = some (S_OK, ⟨LVCFMT_LEFT, 20, ⟨STRRET_WSTR,
            some ([49, 47, 50, 47, 50, 48, 48, 51] ++ [32] ++ [52, 58, 48, 53])⟩⟩,
          [] ++ [Event.SHStrDupW ([49, 47, 50, 47, 50, 48, 48, 51] ++ [32] ++ [52, 58, 48, 53])
            true]) ∧
    RecycleBin_GetDetailsOf sampleEnv sampleHost (List.replicate 260 7) (some (sampleItem 1))
        COLUMN_MTIME ⟨0, 0, ⟨5, none⟩⟩ []
      = some (S_OK, ⟨LVCFMT_LEFT, 20, ⟨STRRET_WSTR,
            some ([49, 47, 50, 47, 50, 48, 48, 51] ++ [32] ++ [52, 58, 48, 53])⟩⟩,
          [] ++ [Event.SHStrDupW ([49, 47, 50, 47, 50, 48, 48, 51] ++ [32] ++ [52, 58, 48, 53])
            true]) :=
  ⟨(RecycleBin_GetDetailsOf_date_columns sampleEnv sampleHost (List.replicate 260 7)
      (sampleItem 1) COLUMN_DATEDEL ⟨0, 0, ⟨5, none⟩⟩ [] ⟨0, 0⟩
      [49, 47, 50, 47, 50, 48, 48, 51] [52, 58, 48, 53] (Or.inl ⟨rfl, rfl⟩) (by decide)
      (by decide) (by decide) (by decide) (by decide) (by decide)).2 rfl,
   (RecycleBin_GetDetailsOf_date_columns sampleEnv sampleHost (List.replicate 260 7)
      (sampleItem 1) COLUMN_MTIME ⟨0, 0, ⟨5, none⟩⟩ [] ⟨0, 0⟩
      [49, 47, 50, 47, 50, 48, 48, 51] [52, 58, 48, 53] (Or.inr ⟨rfl, rfl⟩) (by decide)
      (by decide) (by decide) (by decide) (by decide) (by decide)).2 rfl⟩

/-- The date columns of RecycleBin_GetDetailsOf when the date formatter fails (returns 0 and
stores nothing): FormatDateTime leaves the local buffer as it was, its HRESULT is not read, and
the text handed to SHStrDupW is the string the buffer happened to hold. -/
theorem RecycleBin_GetDetailsOf_date_failed (env : Env) (host : Host) (buffer : List Nat)
    (p : ITEMIDLIST) (iColumn : Nat) (pDetails : SHELLDETAILS) (tr : Trace) (ft : FILETIME)
    (hcol : (iColumn = COLUMN_DATEDEL ∧ ft = (env.TRASH_UnpackItemID p.mkid).ftLastAccessTime) ∨
      (iColumn = COLUMN_MTIME ∧ ft = (env.TRASH_UnpackItemID p.mkid).ftLastWriteTime))
    (hdate : host.GetDateFormatW (host.FileTimeToSystemTime (host.FileTimeToLocalFileTime ft))
      MAX_PATH = (0, [])) :
    RecycleBin_GetDetailsOf env host buffer (some p) iColumn pDetails tr
      = some ((SHStrDupW env (wstr buffer) tr).1,
          ⟨LVCFMT_LEFT, 20, ⟨STRRET_WSTR, (SHStrDupW env (wstr buffer) tr).2.1⟩⟩,
          (SHStrDupW env (wstr buffer) tr).2.2) := by
  have hw := FormatDateTime_date_failed host buffer MAX_PATH ft hdate
  rcases hcol with ⟨hi, hft⟩ | ⟨hi, hft⟩
  · subst hi
    rw [← congrArg wstr hw, hft]
    rfl
  · subst hi
    rw [← congrArg wstr hw, hft]
    rfl

/-- The failing date formatter of the sample library, with two contents of the local buffer. -/
theorem RecycleBin_GetDetailsOf_date_failed_witness :
    RecycleBin_GetDetailsOf sampleEnv sampleHostNoDate [88, 0, 7] (some (sampleItem 1))
        COLUMN_DATEDEL ⟨0, 0, ⟨5, none⟩⟩ []
      = some ((SHStrDupW sampleEnv (wstr [88, 0, 7]) []).1,
          ⟨LVCFMT_LEFT, 20, ⟨STRRET_WSTR, (SHStrDupW sampleEnv (wstr [88, 0, 7]) []).2.1⟩⟩,
          (SHStrDupW sampleEnv (wstr [88, 0, 7]) []).2.2) :=
  RecycleBin_GetDetailsOf_date_failed sampleEnv sampleHostNoDate [88, 0, 7] (sampleItem 1)
    COLUMN_DATEDEL ⟨0, 0, ⟨5, none⟩⟩ [] ⟨0, 0⟩ (Or.inl ⟨rfl, rfl⟩) rfl

/-- C13, on the code: for an item and a date formatter that fails (GetDateFormatW returns 0
and stores nothing), RecycleBin_GetDetailsOf returns S_OK for column 2 (deleted date) and for
column 5 (modified date) with a STRRET_WSTR string that is the text the uninitialised local
buffer happened to hold: `XY` for a buffer that began with `XY`, `Z` for a buffer that began
with `Z`, for the same item, so the string is not built from the deletion time or the
last-write time. With the sample date formatter, which succeeds, both buffers give
`1/2/2003 4:05` for column 2. -/
theorem RecycleBin_GetDetailsOf_uninitialised_buffer :
    (sampleHostNoDate.GetDateFormatW
      (sampleHostNoDate.FileTimeToSystemTime (sampleHostNoDate.FileTimeToLocalFileTime
        (sampleEnv.TRASH_UnpackItemID (sampleItem 1).mkid).ftLastAccessTime)) MAX_PATH).1 = 0 ∧
    RecycleBin_GetDetailsOf sampleEnv sampleHostNoDate ([88, 89, 0] ++ List.replicate 257 7)
        (some (sampleItem 1)) COLUMN_DATEDEL ⟨0, 0, ⟨5, none⟩⟩ []
      = some (S_OK, ⟨LVCFMT_LEFT, 20, ⟨STRRET_WSTR, some [88, 89]⟩⟩,
          [Event.SHStrDupW [88, 89] true]) ∧
    RecycleBin_GetDetailsOf sampleEnv sampleHostNoDate ([90, 0] ++ List.replicate 258 7)
        (some (sampleItem 1)) COLUMN_DATEDEL ⟨0, 0, ⟨5, none⟩⟩ []
      = some (S_OK, ⟨LVCFMT_LEFT, 20, ⟨STRRET_WSTR, some [90]⟩⟩,
          [Event.SHStrDupW [90] true]) ∧
    RecycleBin_GetDetailsOf sampleEnv sampleHostNoDate ([88, 89, 0] ++ List.replicate 257 7)
        (some (sampleItem 1)) COLUMN_MTIME ⟨0, 0, ⟨5, none⟩⟩ []
      = some (S_OK, ⟨LVCFMT_LEFT, 20, ⟨STRRET_WSTR, some [88, 89]⟩⟩,
          [Event.SHStrDupW [88, 89] true]) ∧
    RecycleBin_GetDetailsOf sampleEnv sampleHostNoDate ([90, 0] ++ List.replicate 258 7)
        (some (sampleItem 1)) COLUMN_MTIME ⟨0, 0, ⟨5, none⟩⟩ []
      = some (S_OK, ⟨LVCFMT_LEFT, 20, ⟨STRRET_WSTR, some [90]⟩⟩,
          [Event.SHStrDupW [90] true]) ∧
    RecycleBin_GetDetailsOf sampleEnv sampleHost ([88, 89, 0] ++ List.replicate 257 7)
        (some (sampleItem 1)) COLUMN_DATEDEL ⟨0, 0, ⟨5, none⟩⟩ []
      = some (S_OK, ⟨LVCFMT_LEFT, 20, ⟨STRRET_WSTR,
            some [49, 47, 50, 47, 50, 48, 48, 51, 32, 52, 58, 48, 53]⟩⟩,
          [Event.SHStrDupW [49, 47, 50, 47, 50, 48, 48, 51, 32, 52, 58, 48, 53] true]) ∧
    RecycleBin_GetDetailsOf sampleEnv sampleHost ([90, 0] ++ List.replicate 258 7)
        (some (sampleItem 1)) COLUMN_DATEDEL ⟨0, 0, ⟨5, none⟩⟩ []
      = some (S_OK, ⟨LVCFMT_LEFT, 20, ⟨STRRET_WSTR,
            some [49, 47, 50, 47, 50, 48, 48, 51, 32, 52, 58, 48, 53]⟩⟩,
          [Event.SHStrDupW [49, 47, 50, 47, 50, 48, 48, 51, 32, 52, 58, 48, 53] true]) :=
  ⟨by decide, by decide, by decide, by decide, by decide, by decide, by decide⟩

end Shell32
